import Mathlib

/-!
# Frame recorders of `pkg/recorder`

A shallow embedding of the three recorders of `pkg/recorder`
(`mjpeg_recorder.go`, `gif_recorder.go`, `webp_recorder.go`) and of the
constructor call made by `WrapGame` (`wrapper.go`).

Conventions of the embedding:

* a Go `*T` receiver that a method mutates becomes explicit state passing: a
  method takes the recorder and returns a `Result` holding the recorder
  afterwards, what the call returned (or that it panicked) and the calls it made
  to code outside the package, in order and with their arguments;
* what a call to outside code answers (an `error`, the bytes of an encoded
  frame) is an argument of the method, so a statement quantified over these
  arguments covers every behaviour of the libraries and of the file system;
* Go `int` is 64 bits wide and `int32` 32 bits wide; values are `Int` and every
  conversion or increment that can wrap is written with its modulus.
-/

namespace Recorder

/-! ## Go values -/

/-- A non-nil Go `error`; a nil error is `Option.none`. -/
abbrev Error := String

/-- A Go `[]byte`. -/
abbrev Bytes := List Nat

/-- The value of a Go `int` (64 bits, two's complement) holding the
mathematical result `x`. -/
def wrapInt (x : Int) : Int := (x + 2 ^ 63) % 2 ^ 64 - 2 ^ 63

/-- The conversion `int32(x)`. -/
def int32 (x : Int) : Int := (x + 2 ^ 31) % 2 ^ 32 - 2 ^ 31

/-- The conversion `uint(x)` of a Go `int` (64 bits). -/
def uint (x : Int) : Nat := (x % 2 ^ 64).toNat

/-- The values a Go `int` can hold. -/
def IsInt (x : Int) : Prop := -2 ^ 63 ≤ x ∧ x < 2 ^ 63

instance (x : Int) : Decidable (IsInt x) := by
  unfold IsInt
  exact inferInstance

/-- The type `image.Point`. -/
structure Point where
  X : Int
  Y : Int
deriving DecidableEq, Repr

/-- The type `image.Rectangle`. -/
structure Rectangle where
  Min : Point
  Max : Point
deriving DecidableEq, Repr

/-- The method `Rectangle.Dx`. -/
def Rectangle.Dx (r : Rectangle) : Int := r.Max.X - r.Min.X

/-- The method `Rectangle.Dy`. -/
def Rectangle.Dy (r : Rectangle) : Int := r.Max.Y - r.Min.Y

/-- An `*ebiten.Image` as the recorders see it: where it starts, its size and
the bytes `ReadPixels` copies out of it. -/
structure Image where
  origin : Point
  w : Nat
  h : Nat
  content : Bytes
deriving DecidableEq, Repr

/-- The method `Image.Bounds`. -/
def Image.Bounds (s : Image) : Rectangle :=
  { Min := s.origin, Max := { X := s.origin.X + s.w, Y := s.origin.Y + s.h } }

/-- The type `image.RGBA`, with the fields the recorders set. -/
structure RGBA where
  Pix : Bytes
  Stride : Int
  Rect : Rectangle
deriving DecidableEq, Repr

/-- An `*image.Paletted` made by `image.NewPaletted(bounds, palette.Plan9)` and
filled by `draw.Draw` from an RGBA image: its bounds and the image it was drawn
from (which palette index each pixel gets is decided by `image/draw`). -/
structure Paletted where
  Rect : Rectangle
  src : RGBA
deriving DecidableEq, Repr

/-- An `mjpeg.AviWriter` returned by `mjpeg.New`: the arguments it was opened
with. -/
structure AviWriter where
  path : String
  width : Int
  height : Int
  fps : Int
deriving DecidableEq, Repr

/-- A call a recorder makes to code outside the package. -/
inductive Call where
  | mjpegNew (path : String) (width height fps : Int)
  | writerClose (w : AviWriter)
  | writerAddFrame (w : AviWriter) (data : Bytes)
  | readPixels (len : Int)
  | jpegEncode (img : RGBA) (quality : Int)
  | drawDraw (dst : Rectangle) (src : RGBA)
  | osCreate (path : String)
  | fileClose
  | gifEncodeAll (images : List Paletted) (delays : List Int)
  | webpEncodeAll (images : List Paletted) (durations disposals : List Nat)
      (loopCount backgroundColor : Nat)
deriving DecidableEq, Repr

/-- How a call ended: it returned a value, or the goroutine panicked. -/
inductive Outcome (α : Type) where
  | returned (v : α)
  | panicked
deriving DecidableEq, Repr

/-- What a method call leaves behind: the recorder, how the call ended and the
outside calls it made. -/
structure Result (ρ α : Type) where
  recorder : ρ
  out : Outcome α
  calls : List Call
deriving DecidableEq, Repr

/-! ## `mjpeg_recorder.go` -/

/-- The struct `MJPEGRecorder`; a nil `writer` is `none`. -/
structure MJPEGRecorder where
  writer : Option AviWriter
  recording : Bool
  maxFrames : Int
  fps : Int
  frameCount : Int
  outputPath : String
  width : Int
  height : Int
  jpegQuality : Int
deriving DecidableEq, Repr

/-- The constructor `NewMJPEGRecorder`. -/
def NewMJPEGRecorder (maxFrames fps : Int) (outputPath : String) (jpegQuality : Int) :
    MJPEGRecorder :=
  let maxFrames := if maxFrames ≤ 0 then 600 else maxFrames
  let fps := if fps ≤ 0 then 30 else fps
  let jpegQuality := if jpegQuality ≤ 0 ∨ jpegQuality > 100 then 85 else jpegQuality
  { writer := none
    recording := false
    maxFrames := maxFrames
    fps := int32 fps
    frameCount := 0
    outputPath := outputPath
    width := 0
    height := 0
    jpegQuality := jpegQuality }

/-- The method `MJPEGRecorder.Start`; `newErr` is the error `mjpeg.New` answers
(`none`: it returned a writer). -/
def MJPEGRecorder.Start (r : MJPEGRecorder) (width height : Int) (newErr : Option Error) :
    Result MJPEGRecorder (Option Error) :=
  if r.recording then
    { recorder := r, out := .returned none, calls := [] }
  else
    let opened := Call.mjpegNew r.outputPath (int32 width) (int32 height) r.fps
    match newErr with
    | some err => { recorder := r, out := .returned (some err), calls := [opened] }
    | none =>
      { recorder :=
          { r with
            writer := some
              { path := r.outputPath, width := int32 width, height := int32 height,
                fps := r.fps }
            width := int32 width
            height := int32 height
            recording := true
            frameCount := 0 }
        out := .returned none
        calls := [opened] }

/-- The method `MJPEGRecorder.Stop`; `closeErr` is what `writer.Close` answers. -/
def MJPEGRecorder.Stop (r : MJPEGRecorder) (closeErr : Option Error) :
    Result MJPEGRecorder (Option Error) :=
  if !r.recording then
    { recorder := r, out := .returned none, calls := [] }
  else
    match r.writer with
    | some w =>
      { recorder := { r with recording := false }, out := .returned closeErr,
        calls := [Call.writerClose w] }
    | none => { recorder := { r with recording := false }, out := .returned none, calls := [] }

/-- The method `MJPEGRecorder.IsRecording`. -/
def MJPEGRecorder.IsRecording (r : MJPEGRecorder) : Bool := r.recording

/-- The method `MJPEGRecorder.FrameCount`. -/
def MJPEGRecorder.FrameCount (r : MJPEGRecorder) : Int := r.frameCount

/-- The method `MJPEGRecorder.GetOutputPath`. -/
def MJPEGRecorder.GetOutputPath (r : MJPEGRecorder) : String := r.outputPath

/-- What the outside calls of one `MJPEGRecorder.CaptureFrame` answer:
`jpeg.Encode` (the encoded bytes or an error), `writer.AddFrame` and, on the
path that stops the recorder, `writer.Close`. -/
structure CaptureIO where
  jpeg : Except Error Bytes
  addFrame : Option Error
  close : Option Error

/-- The method `MJPEGRecorder.CaptureFrame`. A nil `writer` makes
`r.writer.AddFrame` panic. -/
def MJPEGRecorder.CaptureFrame (r : MJPEGRecorder) (screen : Image) (io : CaptureIO) :
    Result MJPEGRecorder (Option Error) :=
  if !r.recording then
    { recorder := r, out := .returned none, calls := [] }
  else if r.maxFrames > 0 ∧ r.frameCount ≥ r.maxFrames then
    r.Stop io.close
  else
    let bounds := screen.Bounds
    let w := bounds.Dx
    let h := bounds.Dy
    let rgba : RGBA := { Pix := screen.content, Stride := 4 * w, Rect := bounds }
    let read := [Call.readPixels (4 * w * h), Call.jpegEncode rgba r.jpegQuality]
    match io.jpeg with
    | .error err => { recorder := r, out := .returned (some err), calls := read }
    | .ok buf =>
      match r.writer with
      | none => { recorder := r, out := .panicked, calls := read }
      | some wr =>
        match io.addFrame with
        | some err =>
          { recorder := r, out := .returned (some err),
            calls := read ++ [Call.writerAddFrame wr buf] }
        | none =>
          { recorder := { r with frameCount := wrapInt (r.frameCount + 1) }
            out := .returned none
            calls := read ++ [Call.writerAddFrame wr buf] }

/-! ## `gif_recorder.go` -/

/-- The struct `GIFRecorder`. -/
structure GIFRecorder where
  frames : List Paletted
  delays : List Int
  recording : Bool
  maxFrames : Int
  fps : Int
  frameCount : Int
  outputPath : String
deriving DecidableEq, Repr

/-- The constructor `NewGIFRecorder`. The capacity given to `make` is not part
of the value of a slice; both slices start empty. -/
def NewGIFRecorder (maxFrames fps : Int) (outputPath : String) : GIFRecorder :=
  let maxFrames := if maxFrames ≤ 0 then 600 else maxFrames
  let fps := if fps ≤ 0 then 30 else fps
  { frames := []
    delays := []
    recording := false
    maxFrames := maxFrames
    fps := fps
    frameCount := 0
    outputPath := outputPath }

/-- The method `GIFRecorder.Start`. -/
def GIFRecorder.Start (r : GIFRecorder) : GIFRecorder :=
  { r with recording := true, frames := r.frames.take 0, delays := r.delays.take 0,
           frameCount := 0 }

/-- The method `GIFRecorder.Stop`. -/
def GIFRecorder.Stop (r : GIFRecorder) : GIFRecorder :=
  { r with recording := false }

/-- The method `GIFRecorder.IsRecording`. -/
def GIFRecorder.IsRecording (r : GIFRecorder) : Bool := r.recording

/-- The method `GIFRecorder.FrameCount`. -/
def GIFRecorder.FrameCount (r : GIFRecorder) : Int := r.frameCount

/-- The method `GIFRecorder.GetOutputPath`. -/
def GIFRecorder.GetOutputPath (r : GIFRecorder) : String := r.outputPath

/-- The method `GIFRecorder.CaptureFrame`. The quotient `100/r.fps` is
evaluated after the frame was appended; a zero `r.fps` panics there. -/
def GIFRecorder.CaptureFrame (r : GIFRecorder) (screen : Image) : Result GIFRecorder Unit :=
  if !r.recording then
    { recorder := r, out := .returned (), calls := [] }
  else if r.maxFrames > 0 ∧ r.frameCount ≥ r.maxFrames then
    { recorder := r.Stop, out := .returned (), calls := [] }
  else
    let bounds := screen.Bounds
    let w := bounds.Dx
    let h := bounds.Dy
    let rgba : RGBA := { Pix := screen.content, Stride := 4 * w, Rect := bounds }
    let paletted : Paletted := { Rect := bounds, src := rgba }
    let made := [Call.readPixels (4 * w * h), Call.drawDraw bounds rgba]
    let r1 := { r with frames := r.frames ++ [paletted] }
    if r1.fps = 0 then
      { recorder := r1, out := .panicked, calls := made }
    else
      { recorder :=
          { r1 with
            delays := r1.delays ++ [Int.tdiv 100 r1.fps]
            frameCount := wrapInt (r1.frameCount + 1) }
        out := .returned ()
        calls := made }

/-- The method `GIFRecorder.SaveGIF`; `createErr` is the error `os.Create`
answers and `encodeErr` the one `gif.EncodeAll` answers. The deferred
`f.Close` runs after `gif.EncodeAll`. -/
def GIFRecorder.SaveGIF (r : GIFRecorder) (createErr encodeErr : Option Error) :
    Result GIFRecorder (Option Error) :=
  if r.frames.length = 0 then
    { recorder := r, out := .returned none, calls := [] }
  else
    match createErr with
    | some err =>
      { recorder := r, out := .returned (some err), calls := [Call.osCreate r.outputPath] }
    | none =>
      { recorder := r
        out := .returned encodeErr
        calls :=
          [Call.osCreate r.outputPath, Call.gifEncodeAll r.frames r.delays, Call.fileClose] }

/-! ## `webp_recorder.go` -/

/-- The struct `WebPRecorder`. -/
structure WebPRecorder where
  frames : List Paletted
  recording : Bool
  maxFrames : Int
  fps : Int
  frameCount : Int
  outputPath : String
  frameDelay : Int
deriving DecidableEq, Repr

/-- The constructor `NewWebPRecorder`. The divisor is positive once the default
is in place, so the quotient never panics. -/
def NewWebPRecorder (maxFrames fps : Int) (outputPath : String) : WebPRecorder :=
  let maxFrames := if maxFrames ≤ 0 then 600 else maxFrames
  let fps := if fps ≤ 0 then 30 else fps
  let frameDelay := Int.tdiv 1000 fps
  { frames := []
    recording := false
    maxFrames := maxFrames
    fps := fps
    frameCount := 0
    outputPath := outputPath
    frameDelay := frameDelay }

/-- The method `WebPRecorder.Start`. -/
def WebPRecorder.Start (r : WebPRecorder) : WebPRecorder :=
  { r with recording := true, frames := r.frames.take 0, frameCount := 0 }

/-- The method `WebPRecorder.Stop`. -/
def WebPRecorder.Stop (r : WebPRecorder) : WebPRecorder :=
  { r with recording := false }

/-- The method `WebPRecorder.IsRecording`. -/
def WebPRecorder.IsRecording (r : WebPRecorder) : Bool := r.recording

/-- The method `WebPRecorder.FrameCount`. -/
def WebPRecorder.FrameCount (r : WebPRecorder) : Int := r.frameCount

/-- The method `WebPRecorder.GetOutputPath`. -/
def WebPRecorder.GetOutputPath (r : WebPRecorder) : String := r.outputPath

/-- The method `WebPRecorder.CaptureFrame`. -/
def WebPRecorder.CaptureFrame (r : WebPRecorder) (screen : Image) : Result WebPRecorder Unit :=
  if !r.recording then
    { recorder := r, out := .returned (), calls := [] }
  else if r.maxFrames > 0 ∧ r.frameCount ≥ r.maxFrames then
    { recorder := r.Stop, out := .returned (), calls := [] }
  else
    let bounds := screen.Bounds
    let w := bounds.Dx
    let h := bounds.Dy
    let rgba : RGBA := { Pix := screen.content, Stride := 4 * w, Rect := bounds }
    let paletted : Paletted := { Rect := bounds, src := rgba }
    { recorder :=
        { r with
          frames := r.frames ++ [paletted]
          frameCount := wrapInt (r.frameCount + 1) }
      out := .returned ()
      calls := [Call.readPixels (4 * w * h), Call.drawDraw bounds rgba] }

/-- The method `WebPRecorder.SaveWebP`; `createErr` is the error `os.Create`
answers and `encodeErr` the one `nativewebp.EncodeAll` answers. -/
def WebPRecorder.SaveWebP (r : WebPRecorder) (createErr encodeErr : Option Error) :
    Result WebPRecorder (Option Error) :=
  if r.frames.length = 0 then
    { recorder := r, out := .returned none, calls := [] }
  else
    match createErr with
    | some err =>
      { recorder := r, out := .returned (some err), calls := [Call.osCreate r.outputPath] }
    | none =>
      let durations := (List.replicate r.frames.length 0).map fun _ => uint r.frameDelay
      let disposals := List.replicate r.frames.length 0
      let genericFrames := r.frames.map fun frame => frame
      { recorder := r
        out := .returned encodeErr
        calls :=
          [Call.osCreate r.outputPath,
           Call.webpEncodeAll genericFrames durations disposals 0 0,
           Call.fileClose] }

/-! ## `wrapper.go` -/

/-- The recorder `WrapGame` builds: `NewMJPEGRecorder(0, 30, outputPath, quality)`. -/
def WrapGame.recorder (outputPath : String) (quality : Int) : MJPEGRecorder :=
  NewMJPEGRecorder 0 30 outputPath quality

/-! ## Sessions: sequences of calls -/

/-- Both fallible outside calls of a capture succeed: `jpeg.Encode` and
`writer.AddFrame`. -/
def CaptureIO.succeeds (io : CaptureIO) : Bool :=
  match io.jpeg, io.addFrame with
  | .ok _, none => true
  | _, _ => false

/-- One call of `MJPEGRecorder.CaptureFrame` after another, one per entry of
`ticks` (the screen drawn and what the outside calls answer). -/
def MJPEGRecorder.captureAll (r : MJPEGRecorder) : List (Image × CaptureIO) → MJPEGRecorder
  | [] => r
  | tick :: rest => (r.CaptureFrame tick.1 tick.2).recorder.captureAll rest

/-- One call of `GIFRecorder.CaptureFrame` after another, one per screen. -/
def GIFRecorder.captureAll (r : GIFRecorder) : List Image → GIFRecorder
  | [] => r
  | screen :: rest => (r.CaptureFrame screen).recorder.captureAll rest

/-- One call of `WebPRecorder.CaptureFrame` after another, one per screen. -/
def WebPRecorder.captureAll (r : WebPRecorder) : List Image → WebPRecorder
  | [] => r
  | screen :: rest => (r.CaptureFrame screen).recorder.captureAll rest

/-- The states an `MJPEGRecorder` can be in: the ones `NewMJPEGRecorder` returns
and the ones a method call leaves behind, whatever the outside calls answer. -/
inductive MJPEGRecorder.Reachable : MJPEGRecorder → Prop where
  | new (maxFrames fps : Int) (outputPath : String) (jpegQuality : Int) :
      IsInt maxFrames → Reachable (NewMJPEGRecorder maxFrames fps outputPath jpegQuality)
  | start {r : MJPEGRecorder} (width height : Int) (newErr : Option Error) :
      Reachable r → Reachable (r.Start width height newErr).recorder
  | stop {r : MJPEGRecorder} (closeErr : Option Error) :
      Reachable r → Reachable (r.Stop closeErr).recorder
  | capture {r : MJPEGRecorder} (screen : Image) (io : CaptureIO) :
      Reachable r → Reachable (r.CaptureFrame screen io).recorder

/-- The states a `GIFRecorder` can be in. -/
inductive GIFRecorder.Reachable : GIFRecorder → Prop where
  | new (maxFrames fps : Int) (outputPath : String) :
      IsInt maxFrames → Reachable (NewGIFRecorder maxFrames fps outputPath)
  | start {r : GIFRecorder} : Reachable r → Reachable r.Start
  | stop {r : GIFRecorder} : Reachable r → Reachable r.Stop
  | capture {r : GIFRecorder} (screen : Image) :
      Reachable r → Reachable (r.CaptureFrame screen).recorder
  | save {r : GIFRecorder} (createErr encodeErr : Option Error) :
      Reachable r → Reachable (r.SaveGIF createErr encodeErr).recorder

/-- The states a `WebPRecorder` can be in. -/
inductive WebPRecorder.Reachable : WebPRecorder → Prop where
  | new (maxFrames fps : Int) (outputPath : String) :
      IsInt maxFrames → Reachable (NewWebPRecorder maxFrames fps outputPath)
  | start {r : WebPRecorder} : Reachable r → Reachable r.Start
  | stop {r : WebPRecorder} : Reachable r → Reachable r.Stop
  | capture {r : WebPRecorder} (screen : Image) :
      Reachable r → Reachable (r.CaptureFrame screen).recorder
  | save {r : WebPRecorder} (createErr encodeErr : Option Error) :
      Reachable r → Reachable (r.SaveWebP createErr encodeErr).recorder

/-- What every reachable `MJPEGRecorder` satisfies: the frame limit is a
positive Go `int`, the count lies between zero and the limit, and a recording
recorder holds a writer. -/
def MJPEGRecorder.Inv (r : MJPEGRecorder) : Prop :=
  0 < r.maxFrames ∧ r.maxFrames < 2 ^ 63 ∧ 0 ≤ r.frameCount ∧ r.frameCount ≤ r.maxFrames ∧
    (r.recording = true → r.writer.isSome = true)

/-- What every reachable `GIFRecorder` satisfies. -/
def GIFRecorder.Inv (r : GIFRecorder) : Prop :=
  0 < r.maxFrames ∧ r.maxFrames < 2 ^ 63 ∧ r.frameCount ≤ r.maxFrames ∧
    (r.frames.length : Int) = r.frameCount ∧ r.delays.length = r.frames.length ∧ 1 ≤ r.fps

/-- What every reachable `WebPRecorder` satisfies. -/
def WebPRecorder.Inv (r : WebPRecorder) : Prop :=
  0 < r.maxFrames ∧ r.maxFrames < 2 ^ 63 ∧ r.frameCount ≤ r.maxFrames ∧
    (r.frames.length : Int) = r.frameCount ∧ 1 ≤ r.fps ∧
    r.frameDelay = Int.tdiv 1000 r.fps

/-! ## Concrete inputs -/

/-- A 2 by 1 screen. -/
def screen2x1 : Image :=
  { origin := { X := 0, Y := 0 }, w := 2, h := 1, content := [1, 2, 3, 255, 4, 5, 6, 255] }

/-- Answers of a capture whose outside calls all succeed. -/
def ioOk : CaptureIO := { jpeg := .ok [255, 216, 255, 217], addFrame := none, close := none }

/-- Answers of a capture whose `jpeg.Encode` fails. -/
def ioEncodeFails : CaptureIO :=
  { jpeg := .error "encode failed", addFrame := none, close := none }

/-- Answers of a capture whose `writer.AddFrame` fails. -/
def ioAddFrameFails : CaptureIO :=
  { jpeg := .ok [255, 216, 255, 217], addFrame := some "disk full", close := none }

/-- The quality the specification's policy gives for a requested quality: 85
when it is zero, otherwise the request clamped to the nearest bound of
`[1, 100]`. Written from the specification's words, to be compared with the
field `jpegQuality` that `NewMJPEGRecorder` stores. -/
def specQuality (jpegQuality : Int) : Int :=
  if jpegQuality = 0 then 85
  else if jpegQuality < 1 then 1
  else if jpegQuality > 100 then 100
  else jpegQuality

/-- The constructor `NewWebPRecorder` with the run-time check of its quotient
written out: Go panics on an integer division whose divisor is zero. -/
def NewWebPRecorder.checked (maxFrames fps : Int) (outputPath : String) :
    Outcome WebPRecorder :=
  let maxFrames := if maxFrames ≤ 0 then 600 else maxFrames
  let fps := if fps ≤ 0 then 30 else fps
  if fps = 0 then
    .panicked
  else
    let frameDelay := Int.tdiv 1000 fps
    .returned
      { frames := []
        recording := false
        maxFrames := maxFrames
        fps := fps
        frameCount := 0
        outputPath := outputPath
        frameDelay := frameDelay }

/-- The values an `int32` can hold. -/
def IsInt32 (x : Int) : Prop := -2 ^ 31 ≤ x ∧ x < 2 ^ 31

instance (x : Int) : Decidable (IsInt32 x) := by
  unfold IsInt32
  exact inferInstance

/-! ## Lemmas -/

theorem wrapInt_of_isInt {x : Int} (h1 : -2 ^ 63 ≤ x) (h2 : x < 2 ^ 63) : wrapInt x = x := by
  unfold wrapInt
  norm_num at h1 h2 ⊢
  omega

theorem MJPEGRecorder.mjpeg_inv_new (maxFrames fps : Int) (outputPath : String) (jpegQuality : Int)
    (h : IsInt maxFrames) : (NewMJPEGRecorder maxFrames fps outputPath jpegQuality).Inv := by
  unfold IsInt at h
  unfold MJPEGRecorder.Inv NewMJPEGRecorder
  norm_num at h ⊢
  split_ifs <;> omega

theorem MJPEGRecorder.mjpeg_inv_start (r : MJPEGRecorder) (width height : Int)
    (newErr : Option Error) (h : r.Inv) : (r.Start width height newErr).recorder.Inv := by
  unfold MJPEGRecorder.Start
  split_ifs with hrec
  · exact h
  · cases newErr with
    | some err => exact h
    | none =>
      obtain ⟨h1, h2, -, -, -⟩ := h
      exact ⟨h1, h2, le_refl _, le_of_lt h1, fun _ => rfl⟩

theorem MJPEGRecorder.mjpeg_inv_stop (r : MJPEGRecorder) (closeErr : Option Error) (h : r.Inv) :
    (r.Stop closeErr).recorder.Inv := by
  unfold MJPEGRecorder.Stop
  split_ifs with hrec
  · exact h
  · obtain ⟨h1, h2, h3, h4, -⟩ := h
    cases hw : r.writer with
    | some w => exact ⟨h1, h2, h3, h4, fun hr => by simp at hr⟩
    | none => exact ⟨h1, h2, h3, h4, fun hr => by simp at hr⟩

theorem MJPEGRecorder.mjpeg_inv_capture (r : MJPEGRecorder) (screen : Image) (io : CaptureIO)
    (h : r.Inv) : (r.CaptureFrame screen io).recorder.Inv := by
  unfold MJPEGRecorder.CaptureFrame
  split_ifs with hrec hlim
  · exact h
  · exact MJPEGRecorder.mjpeg_inv_stop r io.close h
  · cases hj : io.jpeg with
    | error err => exact h
    | ok buf =>
      cases hw : r.writer with
      | none => simpa [hw] using h
      | some wr =>
        cases ha : io.addFrame with
        | some err => simpa [hw] using h
        | none =>
          obtain ⟨h1, h2, h3, h4, h5⟩ := h
          have hlt : r.frameCount < r.maxFrames := by
            by_contra hc
            exact hlim ⟨h1, not_lt.mp hc⟩
          have hw1 : wrapInt (r.frameCount + 1) = r.frameCount + 1 :=
            wrapInt_of_isInt (by norm_num at h2 ⊢; omega) (by norm_num at h2 ⊢; omega)
          unfold MJPEGRecorder.Inv
          dsimp only
          rw [hw1]
          exact ⟨h1, h2, by omega, by omega, fun _ => by simp⟩

theorem MJPEGRecorder.mjpeg_inv_of_reachable {r : MJPEGRecorder} (h : r.Reachable) : r.Inv := by
  induction h with
  | new maxFrames fps outputPath jpegQuality hm =>
    exact MJPEGRecorder.mjpeg_inv_new maxFrames fps outputPath jpegQuality hm
  | start width height newErr _ ih => exact MJPEGRecorder.mjpeg_inv_start _ width height newErr ih
  | stop closeErr _ ih => exact MJPEGRecorder.mjpeg_inv_stop _ closeErr ih
  | capture screen io _ ih => exact MJPEGRecorder.mjpeg_inv_capture _ screen io ih

theorem MJPEGRecorder.mjpeg_capture_idle (r : MJPEGRecorder) (screen : Image) (io : CaptureIO)
    (h : r.recording = false) :
    r.CaptureFrame screen io = { recorder := r, out := .returned none, calls := [] } := by
  simp [MJPEGRecorder.CaptureFrame, h]

theorem MJPEGRecorder.mjpeg_capture_limit (r : MJPEGRecorder) (screen : Image) (io : CaptureIO)
    (hr : r.recording = true) (hm : 0 < r.maxFrames) (hl : r.maxFrames ≤ r.frameCount) :
    r.CaptureFrame screen io = r.Stop io.close := by
  simp [MJPEGRecorder.CaptureFrame, hr, hm, hl]

theorem MJPEGRecorder.mjpeg_stop_recorder (r : MJPEGRecorder) (closeErr : Option Error)
    (h : r.recording = true) : (r.Stop closeErr).recorder = { r with recording := false } := by
  unfold MJPEGRecorder.Stop
  simp only [h, Bool.not_true, Bool.false_eq_true, if_false]
  cases r.writer <;> rfl

theorem MJPEGRecorder.mjpeg_capture_ok (r : MJPEGRecorder) (screen : Image) (io : CaptureIO)
    (wr : AviWriter) (hr : r.recording = true) (hl : r.frameCount < r.maxFrames)
    (hw : r.writer = some wr) (hs : io.succeeds = true) :
    (r.CaptureFrame screen io).recorder = { r with frameCount := wrapInt (r.frameCount + 1) } ∧
      (r.CaptureFrame screen io).out = .returned none := by
  have hnl : ¬ (r.maxFrames > 0 ∧ r.frameCount ≥ r.maxFrames) := fun hc => by omega
  unfold CaptureIO.succeeds at hs
  unfold MJPEGRecorder.CaptureFrame
  simp only [hr, Bool.not_true, Bool.false_eq_true, if_false, hnl]
  cases hj : io.jpeg with
  | error err => simp [hj] at hs
  | ok buf =>
    cases ha : io.addFrame with
    | some err => simp [hj, ha] at hs
    | none => simp [hw]

theorem MJPEGRecorder.mjpeg_captureAll_idle (ticks : List (Image × CaptureIO)) (r : MJPEGRecorder)
    (h : r.recording = false) : r.captureAll ticks = r := by
  induction ticks with
  | nil => rfl
  | cons tick rest ih =>
    unfold MJPEGRecorder.captureAll
    rw [MJPEGRecorder.mjpeg_capture_idle r tick.1 tick.2 h]
    exact ih

/-- After a run of successful captures from a recording state the count is the
smaller of the limit and the count before plus the number of captures, and the
recorder is still recording exactly when that sum has not passed the limit. -/
theorem MJPEGRecorder.mjpeg_captureAll_spec (ticks : List (Image × CaptureIO)) :
    ∀ r : MJPEGRecorder, r.Inv → r.recording = true →
      (∀ tick ∈ ticks, tick.2.succeeds = true) →
      (r.captureAll ticks).frameCount = min (r.frameCount + ticks.length) r.maxFrames ∧
      (r.captureAll ticks).recording = decide (r.frameCount + ticks.length ≤ r.maxFrames) ∧
      (r.captureAll ticks).maxFrames = r.maxFrames := by
  induction ticks with
  | nil =>
    intro r hinv hr _
    obtain ⟨_, _, _, h4, _⟩ := hinv
    simp [MJPEGRecorder.captureAll, h4, hr]
  | cons tick rest ih =>
    intro r hinv hr hall
    have hinv1 := hinv
    obtain ⟨h1, h2, h3, h4, h5⟩ := hinv1
    unfold MJPEGRecorder.captureAll
    by_cases hl : r.frameCount < r.maxFrames
    · obtain ⟨wr, hw⟩ := Option.isSome_iff_exists.mp (h5 hr)
      have hs := hall tick (List.mem_cons_self _ _)
      have hnext := MJPEGRecorder.mjpeg_inv_capture r tick.1 tick.2 hinv
      obtain ⟨hrec, -⟩ := MJPEGRecorder.mjpeg_capture_ok r tick.1 tick.2 wr hr hl hw hs
      have hw1 : wrapInt (r.frameCount + 1) = r.frameCount + 1 :=
        wrapInt_of_isInt (by norm_num at h2 ⊢; omega) (by norm_num at h2 ⊢; omega)
      rw [hrec] at hnext ⊢
      obtain ⟨g1, g2, g3⟩ := ih _ hnext hr (fun t ht => hall t (List.mem_cons_of_mem _ ht))
      rw [g1, g2, g3]
      simp only [hw1, List.length_cons, Nat.cast_add, Nat.cast_one]
      refine ⟨?_, ?_, trivial⟩
      · congr 1
        omega
      · congr 1
        apply propext
        constructor <;> intro h <;> omega
    · have hge : r.maxFrames ≤ r.frameCount := not_lt.mp hl
      rw [MJPEGRecorder.mjpeg_capture_limit r tick.1 tick.2 hr h1 hge,
        MJPEGRecorder.mjpeg_stop_recorder r tick.2.close hr,
        MJPEGRecorder.mjpeg_captureAll_idle rest _ rfl]
      simp only [List.length_cons, Nat.cast_add, Nat.cast_one]
      refine ⟨?_, ?_, trivial⟩
      · rw [min_eq_right (by omega)]
        omega
      · symm
        rw [decide_eq_false_iff_not]
        omega

theorem GIFRecorder.gif_inv_new (maxFrames fps : Int) (outputPath : String) (h : IsInt maxFrames) :
    (NewGIFRecorder maxFrames fps outputPath).Inv := by
  unfold IsInt at h
  unfold GIFRecorder.Inv NewGIFRecorder
  norm_num at h ⊢
  refine ⟨?_, ?_, ?_, ?_⟩ <;> split_ifs <;> omega

theorem GIFRecorder.gif_inv_start (r : GIFRecorder) (h : r.Inv) : r.Start.Inv := by
  obtain ⟨h1, h2, -, -, -, h6⟩ := h
  unfold GIFRecorder.Inv GIFRecorder.Start
  simp only [List.take_zero, List.length_nil, Nat.cast_zero]
  exact ⟨h1, h2, le_of_lt h1, trivial, trivial, h6⟩

theorem GIFRecorder.gif_inv_stop (r : GIFRecorder) (h : r.Inv) : r.Stop.Inv := h

theorem GIFRecorder.gif_capture_idle (r : GIFRecorder) (screen : Image) (h : r.recording = false) :
    r.CaptureFrame screen = { recorder := r, out := .returned (), calls := [] } := by
  simp [GIFRecorder.CaptureFrame, h]

theorem GIFRecorder.gif_capture_limit (r : GIFRecorder) (screen : Image) (hr : r.recording = true)
    (hm : 0 < r.maxFrames) (hl : r.maxFrames ≤ r.frameCount) :
    r.CaptureFrame screen = { recorder := r.Stop, out := .returned (), calls := [] } := by
  simp [GIFRecorder.CaptureFrame, hr, hm, hl]

theorem GIFRecorder.gif_capture_ok (r : GIFRecorder) (screen : Image) (hr : r.recording = true)
    (hl : r.frameCount < r.maxFrames) (hf : r.fps ≠ 0) :
    (r.CaptureFrame screen).recorder =
      { r with
        frames := r.frames ++
          [{ Rect := screen.Bounds
             src := { Pix := screen.content, Stride := 4 * screen.Bounds.Dx,
                      Rect := screen.Bounds } }]
        delays := r.delays ++ [Int.tdiv 100 r.fps]
        frameCount := wrapInt (r.frameCount + 1) } ∧
      (r.CaptureFrame screen).out = .returned () := by
  have hnl : ¬ (r.maxFrames > 0 ∧ r.frameCount ≥ r.maxFrames) := fun hc => by omega
  unfold GIFRecorder.CaptureFrame
  simp [hr, hnl, hf]

theorem GIFRecorder.gif_inv_capture (r : GIFRecorder) (screen : Image) (h : r.Inv) :
    (r.CaptureFrame screen).recorder.Inv := by
  cases hr : r.recording with
  | false => rw [GIFRecorder.gif_capture_idle r screen hr]; exact h
  | true =>
    have hinv := h
    obtain ⟨h1, h2, h3, h4, h5, h6⟩ := hinv
    by_cases hl : r.frameCount < r.maxFrames
    · rw [(GIFRecorder.gif_capture_ok r screen hr hl (by omega)).1]
      have hw1 : wrapInt (r.frameCount + 1) = r.frameCount + 1 :=
        wrapInt_of_isInt (by norm_num at h2 ⊢; omega) (by norm_num at h2 ⊢; omega)
      unfold GIFRecorder.Inv
      simp only [hw1, List.length_append, List.length_singleton, Nat.cast_add, Nat.cast_one]
      exact ⟨h1, h2, by omega, by omega, by omega, h6⟩
    · rw [GIFRecorder.gif_capture_limit r screen hr h1 (not_lt.mp hl)]
      exact h

theorem GIFRecorder.gif_inv_save (r : GIFRecorder) (createErr encodeErr : Option Error)
    (h : r.Inv) : (r.SaveGIF createErr encodeErr).recorder.Inv := by
  unfold GIFRecorder.SaveGIF
  split_ifs
  · exact h
  · cases createErr <;> exact h

theorem GIFRecorder.gif_inv_of_reachable {r : GIFRecorder} (h : r.Reachable) : r.Inv := by
  induction h with
  | new maxFrames fps outputPath hm => exact GIFRecorder.gif_inv_new maxFrames fps outputPath hm
  | start _ ih => exact GIFRecorder.gif_inv_start _ ih
  | stop _ ih => exact GIFRecorder.gif_inv_stop _ ih
  | capture screen _ ih => exact GIFRecorder.gif_inv_capture _ screen ih
  | save createErr encodeErr _ ih => exact GIFRecorder.gif_inv_save _ createErr encodeErr ih

theorem GIFRecorder.gif_captureAll_idle (screens : List Image) (r : GIFRecorder)
    (h : r.recording = false) : r.captureAll screens = r := by
  induction screens with
  | nil => rfl
  | cons screen rest ih =>
    unfold GIFRecorder.captureAll
    rw [GIFRecorder.gif_capture_idle r screen h]
    exact ih

theorem GIFRecorder.gif_inv_captureAll (screens : List Image) :
    ∀ r : GIFRecorder, r.Inv → (r.captureAll screens).Inv := by
  induction screens with
  | nil => intro r h; exact h
  | cons screen rest ih =>
    intro r h
    exact ih _ (GIFRecorder.gif_inv_capture r screen h)

/-- After a run of captures from a recording state the count is the smaller of
the limit and the count before plus the number of captures, and the recorder is
still recording exactly when that sum has not passed the limit. -/
theorem GIFRecorder.gif_captureAll_spec (screens : List Image) :
    ∀ r : GIFRecorder, r.Inv → r.recording = true →
      (r.captureAll screens).frameCount = min (r.frameCount + screens.length) r.maxFrames ∧
      (r.captureAll screens).recording =
        decide (r.frameCount + screens.length ≤ r.maxFrames) ∧
      (r.captureAll screens).maxFrames = r.maxFrames := by
  induction screens with
  | nil =>
    intro r hinv hr
    obtain ⟨_, _, h3, _⟩ := hinv
    simp [GIFRecorder.captureAll, h3, hr]
  | cons screen rest ih =>
    intro r hinv hr
    have hinv1 := hinv
    obtain ⟨h1, h2, h3, h4, h5, h6⟩ := hinv1
    unfold GIFRecorder.captureAll
    by_cases hl : r.frameCount < r.maxFrames
    · have hnext := GIFRecorder.gif_inv_capture r screen hinv
      have hrec := (GIFRecorder.gif_capture_ok r screen hr hl (by omega)).1
      have hw1 : wrapInt (r.frameCount + 1) = r.frameCount + 1 :=
        wrapInt_of_isInt (by norm_num at h2 ⊢; omega) (by norm_num at h2 ⊢; omega)
      rw [hrec] at hnext ⊢
      obtain ⟨g1, g2, g3⟩ := ih _ hnext hr
      rw [g1, g2, g3]
      simp only [hw1, List.length_cons, Nat.cast_add, Nat.cast_one]
      refine ⟨?_, ?_, trivial⟩
      · congr 1
        omega
      · congr 1
        apply propext
        constructor <;> intro h <;> omega
    · have hge : r.maxFrames ≤ r.frameCount := not_lt.mp hl
      rw [GIFRecorder.gif_capture_limit r screen hr h1 hge,
        GIFRecorder.gif_captureAll_idle rest _ rfl]
      simp only [List.length_cons, Nat.cast_add, Nat.cast_one, GIFRecorder.Stop]
      refine ⟨?_, ?_, trivial⟩
      · rw [min_eq_right (by omega)]
        omega
      · symm
        rw [decide_eq_false_iff_not]
        omega

theorem WebPRecorder.webp_inv_new (maxFrames fps : Int) (outputPath : String) (h : IsInt maxFrames) :
    (NewWebPRecorder maxFrames fps outputPath).Inv := by
  unfold IsInt at h
  unfold WebPRecorder.Inv NewWebPRecorder
  norm_num at h ⊢
  refine ⟨?_, ?_, ?_, ?_⟩ <;> split_ifs <;> omega

theorem WebPRecorder.webp_inv_start (r : WebPRecorder) (h : r.Inv) : r.Start.Inv := by
  obtain ⟨h1, h2, -, -, h5, h6⟩ := h
  unfold WebPRecorder.Inv WebPRecorder.Start
  simp only [List.take_zero, List.length_nil, Nat.cast_zero]
  exact ⟨h1, h2, le_of_lt h1, trivial, h5, h6⟩

theorem WebPRecorder.webp_inv_stop (r : WebPRecorder) (h : r.Inv) : r.Stop.Inv := h

theorem WebPRecorder.webp_capture_idle (r : WebPRecorder) (screen : Image)
    (h : r.recording = false) :
    r.CaptureFrame screen = { recorder := r, out := .returned (), calls := [] } := by
  simp [WebPRecorder.CaptureFrame, h]

theorem WebPRecorder.webp_capture_limit (r : WebPRecorder) (screen : Image)
    (hr : r.recording = true) (hm : 0 < r.maxFrames) (hl : r.maxFrames ≤ r.frameCount) :
    r.CaptureFrame screen = { recorder := r.Stop, out := .returned (), calls := [] } := by
  simp [WebPRecorder.CaptureFrame, hr, hm, hl]

theorem WebPRecorder.webp_capture_ok (r : WebPRecorder) (screen : Image) (hr : r.recording = true)
    (hl : r.frameCount < r.maxFrames) :
    (r.CaptureFrame screen).recorder =
      { r with
        frames := r.frames ++
          [{ Rect := screen.Bounds
             src := { Pix := screen.content, Stride := 4 * screen.Bounds.Dx,
                      Rect := screen.Bounds } }]
        frameCount := wrapInt (r.frameCount + 1) } ∧
      (r.CaptureFrame screen).out = .returned () := by
  have hnl : ¬ (r.maxFrames > 0 ∧ r.frameCount ≥ r.maxFrames) := fun hc => by omega
  unfold WebPRecorder.CaptureFrame
  simp [hr, hnl]

theorem WebPRecorder.webp_inv_capture (r : WebPRecorder) (screen : Image) (h : r.Inv) :
    (r.CaptureFrame screen).recorder.Inv := by
  cases hr : r.recording with
  | false => rw [WebPRecorder.webp_capture_idle r screen hr]; exact h
  | true =>
    have hinv := h
    obtain ⟨h1, h2, h3, h4, h5, h6⟩ := hinv
    by_cases hl : r.frameCount < r.maxFrames
    · rw [(WebPRecorder.webp_capture_ok r screen hr hl).1]
      have hw1 : wrapInt (r.frameCount + 1) = r.frameCount + 1 :=
        wrapInt_of_isInt (by norm_num at h2 ⊢; omega) (by norm_num at h2 ⊢; omega)
      unfold WebPRecorder.Inv
      simp only [hw1, List.length_append, List.length_singleton, Nat.cast_add, Nat.cast_one]
      exact ⟨h1, h2, by omega, by omega, h5, h6⟩
    · rw [WebPRecorder.webp_capture_limit r screen hr h1 (not_lt.mp hl)]
      exact h

theorem WebPRecorder.webp_inv_save (r : WebPRecorder) (createErr encodeErr : Option Error)
    (h : r.Inv) : (r.SaveWebP createErr encodeErr).recorder.Inv := by
  unfold WebPRecorder.SaveWebP
  split_ifs
  · exact h
  · cases createErr <;> exact h

theorem WebPRecorder.webp_inv_of_reachable {r : WebPRecorder} (h : r.Reachable) : r.Inv := by
  induction h with
  | new maxFrames fps outputPath hm => exact WebPRecorder.webp_inv_new maxFrames fps outputPath hm
  | start _ ih => exact WebPRecorder.webp_inv_start _ ih
  | stop _ ih => exact WebPRecorder.webp_inv_stop _ ih
  | capture screen _ ih => exact WebPRecorder.webp_inv_capture _ screen ih
  | save createErr encodeErr _ ih => exact WebPRecorder.webp_inv_save _ createErr encodeErr ih

theorem WebPRecorder.webp_captureAll_idle (screens : List Image) (r : WebPRecorder)
    (h : r.recording = false) : r.captureAll screens = r := by
  induction screens with
  | nil => rfl
  | cons screen rest ih =>
    unfold WebPRecorder.captureAll
    rw [WebPRecorder.webp_capture_idle r screen h]
    exact ih

theorem WebPRecorder.webp_inv_captureAll (screens : List Image) :
    ∀ r : WebPRecorder, r.Inv → (r.captureAll screens).Inv := by
  induction screens with
  | nil => intro r h; exact h
  | cons screen rest ih =>
    intro r h
    exact ih _ (WebPRecorder.webp_inv_capture r screen h)

/-- After a run of captures from a recording state the count is the smaller of
the limit and the count before plus the number of captures, and the recorder is
still recording exactly when that sum has not passed the limit. -/
theorem WebPRecorder.webp_captureAll_spec (screens : List Image) :
    ∀ r : WebPRecorder, r.Inv → r.recording = true →
      (r.captureAll screens).frameCount = min (r.frameCount + screens.length) r.maxFrames ∧
      (r.captureAll screens).recording =
        decide (r.frameCount + screens.length ≤ r.maxFrames) ∧
      (r.captureAll screens).maxFrames = r.maxFrames := by
  induction screens with
  | nil =>
    intro r hinv hr
    obtain ⟨_, _, h3, _⟩ := hinv
    simp [WebPRecorder.captureAll, h3, hr]
  | cons screen rest ih =>
    intro r hinv hr
    have hinv1 := hinv
    obtain ⟨h1, h2, h3, h4, h5, h6⟩ := hinv1
    unfold WebPRecorder.captureAll
    by_cases hl : r.frameCount < r.maxFrames
    · have hnext := WebPRecorder.webp_inv_capture r screen hinv
      have hrec := (WebPRecorder.webp_capture_ok r screen hr hl).1
      have hw1 : wrapInt (r.frameCount + 1) = r.frameCount + 1 :=
        wrapInt_of_isInt (by norm_num at h2 ⊢; omega) (by norm_num at h2 ⊢; omega)
      rw [hrec] at hnext ⊢
      obtain ⟨g1, g2, g3⟩ := ih _ hnext hr
      rw [g1, g2, g3]
      simp only [hw1, List.length_cons, Nat.cast_add, Nat.cast_one]
      refine ⟨?_, ?_, trivial⟩
      · congr 1
        omega
      · congr 1
        apply propext
        constructor <;> intro h <;> omega
    · have hge : r.maxFrames ≤ r.frameCount := not_lt.mp hl
      rw [WebPRecorder.webp_capture_limit r screen hr h1 hge,
        WebPRecorder.webp_captureAll_idle rest _ rfl]
      simp only [List.length_cons, Nat.cast_add, Nat.cast_one, WebPRecorder.Stop]
      refine ⟨?_, ?_, trivial⟩
      · rw [min_eq_right (by omega)]
        omega
      · symm
        rw [decide_eq_false_iff_not]
        omega

theorem MJPEGRecorder.mjpeg_start_ok (r : MJPEGRecorder) (width height : Int)
    (h : r.recording = false) :
    (r.Start width height none).recorder =
      { r with
        writer := some
          { path := r.outputPath, width := int32 width, height := int32 height, fps := r.fps }
        width := int32 width
        height := int32 height
        recording := true
        frameCount := 0 } := by
  simp [MJPEGRecorder.Start, h]

theorem MJPEGRecorder.mjpeg_reachable_captureAll (ticks : List (Image × CaptureIO)) :
    ∀ r : MJPEGRecorder, r.Reachable → (r.captureAll ticks).Reachable := by
  induction ticks with
  | nil => intro r h; exact h
  | cons tick rest ih =>
    intro r h
    exact ih _ (MJPEGRecorder.Reachable.capture tick.1 tick.2 h)

theorem GIFRecorder.gif_reachable_captureAll (screens : List Image) :
    ∀ r : GIFRecorder, r.Reachable → (r.captureAll screens).Reachable := by
  induction screens with
  | nil => intro r h; exact h
  | cons screen rest ih =>
    intro r h
    exact ih _ (GIFRecorder.Reachable.capture screen h)

theorem WebPRecorder.webp_reachable_captureAll (screens : List Image) :
    ∀ r : WebPRecorder, r.Reachable → (r.captureAll screens).Reachable := by
  induction screens with
  | nil => intro r h; exact h
  | cons screen rest ih =>
    intro r h
    exact ih _ (WebPRecorder.Reachable.capture screen h)

/-- A session of an `MJPEGRecorder`: from an idle reachable state, `Start`
succeeds and every capture succeeds. -/
theorem MJPEGRecorder.mjpeg_session_spec (r : MJPEGRecorder) (width height : Int)
    (ticks : List (Image × CaptureIO)) (hreach : r.Reachable) (hidle : r.recording = false)
    (hall : ∀ tick ∈ ticks, tick.2.succeeds = true) :
    ((r.Start width height none).recorder.captureAll ticks).frameCount =
        min (ticks.length : Int) r.maxFrames ∧
      ((r.Start width height none).recorder.captureAll ticks).recording =
        decide ((ticks.length : Int) ≤ r.maxFrames) ∧
      ((r.Start width height none).recorder.captureAll ticks).maxFrames = r.maxFrames := by
  have hinv := MJPEGRecorder.mjpeg_inv_start r width height none (MJPEGRecorder.mjpeg_inv_of_reachable hreach)
  have hspec := MJPEGRecorder.mjpeg_captureAll_spec ticks _ hinv
  rw [MJPEGRecorder.mjpeg_start_ok r width height hidle] at hspec ⊢
  simpa using hspec rfl hall

/-- A session of a `GIFRecorder` from a reachable state. -/
theorem GIFRecorder.gif_session_spec (r : GIFRecorder) (screens : List Image)
    (hreach : r.Reachable) :
    (r.Start.captureAll screens).frameCount = min (screens.length : Int) r.maxFrames ∧
      (r.Start.captureAll screens).recording = decide ((screens.length : Int) ≤ r.maxFrames) ∧
      (r.Start.captureAll screens).maxFrames = r.maxFrames ∧
      ((r.Start.captureAll screens).frames.length : Int) =
        min (screens.length : Int) r.maxFrames := by
  have hinv := GIFRecorder.gif_inv_start r (GIFRecorder.gif_inv_of_reachable hreach)
  have hspec := GIFRecorder.gif_captureAll_spec screens _ hinv rfl
  have hlen := (GIFRecorder.gif_inv_captureAll screens _ hinv).2.2.2.1
  have h0 : r.Start.frameCount = 0 := rfl
  have hm : r.Start.maxFrames = r.maxFrames := rfl
  rw [h0, hm, zero_add] at hspec
  exact ⟨hspec.1, hspec.2.1, hspec.2.2, hlen.trans hspec.1⟩

/-- A session of a `WebPRecorder` from a reachable state. -/
theorem WebPRecorder.webp_session_spec (r : WebPRecorder) (screens : List Image)
    (hreach : r.Reachable) :
    (r.Start.captureAll screens).frameCount = min (screens.length : Int) r.maxFrames ∧
      (r.Start.captureAll screens).recording = decide ((screens.length : Int) ≤ r.maxFrames) ∧
      (r.Start.captureAll screens).maxFrames = r.maxFrames ∧
      ((r.Start.captureAll screens).frames.length : Int) =
        min (screens.length : Int) r.maxFrames := by
  have hinv := WebPRecorder.webp_inv_start r (WebPRecorder.webp_inv_of_reachable hreach)
  have hspec := WebPRecorder.webp_captureAll_spec screens _ hinv rfl
  have hlen := (WebPRecorder.webp_inv_captureAll screens _ hinv).2.2.2.1
  have h0 : r.Start.frameCount = 0 := rfl
  have hm : r.Start.maxFrames = r.maxFrames := rfl
  rw [h0, hm, zero_add] at hspec
  exact ⟨hspec.1, hspec.2.1, hspec.2.2, hlen.trans hspec.1⟩

theorem GIFRecorder.gif_save_calls (r : GIFRecorder) (createErr encodeErr : Option Error)
    (images : List Paletted) (delays : List Int)
    (h : Call.gifEncodeAll images delays ∈ (r.SaveGIF createErr encodeErr).calls) :
    images = r.frames ∧ delays = r.delays := by
  unfold GIFRecorder.SaveGIF at h
  split_ifs at h
  · simp at h
  · cases createErr with
    | some err => simp at h
    | none => simpa using h

theorem WebPRecorder.webp_save_calls (r : WebPRecorder) (createErr encodeErr : Option Error)
    (images : List Paletted) (durations disposals : List Nat) (loopCount backgroundColor : Nat)
    (h : Call.webpEncodeAll images durations disposals loopCount backgroundColor ∈
      (r.SaveWebP createErr encodeErr).calls) :
    images = r.frames ∧ durations = List.replicate r.frames.length (uint r.frameDelay) := by
  unfold WebPRecorder.SaveWebP at h
  split_ifs at h
  · simp at h
  · cases createErr with
    | some err => simp at h
    | none =>
      simp only [List.mem_cons, Call.webpEncodeAll.injEq, List.mem_singleton, reduceCtorEq,
        or_false, false_or, List.map_id', List.map_replicate, List.not_mem_nil] at h
      exact ⟨h.1, h.2.1⟩

theorem GIFRecorder.gif_capture_delays (r : GIFRecorder) (screen : Image) :
    (r.CaptureFrame screen).recorder.fps = r.fps ∧
      ((r.CaptureFrame screen).recorder.delays = r.delays ∨
        (r.CaptureFrame screen).recorder.delays = r.delays ++ [Int.tdiv 100 r.fps]) := by
  unfold GIFRecorder.CaptureFrame
  dsimp only
  split_ifs
  · exact ⟨rfl, Or.inl rfl⟩
  · exact ⟨rfl, Or.inl rfl⟩
  · exact ⟨rfl, Or.inl rfl⟩
  · exact ⟨rfl, Or.inr rfl⟩

theorem GIFRecorder.gif_captureAll_delays (screens : List Image) :
    ∀ r : GIFRecorder, ∀ d ∈ (r.captureAll screens).delays,
      d ∈ r.delays ∨ d = Int.tdiv 100 r.fps := by
  induction screens with
  | nil => intro r d hd; exact Or.inl hd
  | cons screen rest ih =>
    intro r d hd
    obtain ⟨hfps, hdel⟩ := GIFRecorder.gif_capture_delays r screen
    have h := ih _ d hd
    rw [hfps] at h
    rcases h with h | h
    · rcases hdel with hdel | hdel
      · rw [hdel] at h; exact Or.inl h
      · rw [hdel] at h
        rcases List.mem_append.mp h with h | h
        · exact Or.inl h
        · exact Or.inr (List.mem_singleton.mp h)
    · exact Or.inr h

theorem tdiv_1000_bounds {f : Int} (h : 1 ≤ f) :
    0 ≤ Int.tdiv 1000 f ∧ Int.tdiv 1000 f ≤ 1000 := by
  rw [Int.tdiv_eq_ediv (by decide) (by omega)]
  exact ⟨Int.ediv_nonneg (by decide) (by omega), Int.ediv_le_self _ (by decide)⟩

theorem uint_tdiv_1000 {f : Int} (h : 1 ≤ f) :
    uint (Int.tdiv 1000 f) = (Int.tdiv 1000 f).toNat := by
  obtain ⟨hlo, hhi⟩ := tdiv_1000_bounds h
  unfold uint
  rw [Int.emod_eq_of_lt hlo (by norm_num; omega)]

theorem WebPRecorder.webp_capture_static (r : WebPRecorder) (screen : Image) :
    (r.CaptureFrame screen).recorder.fps = r.fps ∧
      (r.CaptureFrame screen).recorder.outputPath = r.outputPath := by
  unfold WebPRecorder.CaptureFrame
  dsimp only
  split_ifs <;> exact ⟨rfl, rfl⟩

theorem WebPRecorder.webp_captureAll_static (screens : List Image) :
    ∀ r : WebPRecorder, (r.captureAll screens).fps = r.fps ∧
      (r.captureAll screens).outputPath = r.outputPath := by
  induction screens with
  | nil => intro r; exact ⟨rfl, rfl⟩
  | cons screen rest ih =>
    intro r
    obtain ⟨h1, h2⟩ := ih (r.CaptureFrame screen).recorder
    obtain ⟨g1, g2⟩ := WebPRecorder.webp_capture_static r screen
    exact ⟨h1.trans g1, h2.trans g2⟩

/-- When frames are buffered and the file is created, `SaveWebP` makes three
outside calls: `os.Create`, `nativewebp.EncodeAll` with the buffered frames and
one duration per frame, and the deferred `f.Close`. -/
theorem WebPRecorder.webp_save_calls_made (r : WebPRecorder) (encodeErr : Option Error)
    (hne : r.frames ≠ []) :
    (r.SaveWebP none encodeErr).calls =
      [Call.osCreate r.outputPath,
       Call.webpEncodeAll r.frames (List.replicate r.frames.length (uint r.frameDelay))
         (List.replicate r.frames.length 0) 0 0,
       Call.fileClose] := by
  have hlen : r.frames.length ≠ 0 := fun h => hne (List.length_eq_zero.mp h)
  simp [WebPRecorder.SaveWebP, hlen]

/-! ## Claims -/

/-- C1: for each of the three recorders, from every reachable idle state with
frame limit `M = r.maxFrames`, after a successful `Start` and `N` calls of
`CaptureFrame` whose encode and `AddFrame` calls all succeed, `FrameCount()` is
`min N M`; for the GIF and WebP recorders the recorder then holds `min N M`
frames, every `EncodeAll` call made by `SaveGIF`/`SaveWebP` receives exactly
these frames, and the call is made whenever `N > 0` and the file is created. -/
theorem C1_frame_count_is_min :
    (∀ (r : MJPEGRecorder) (width height : Int) (ticks : List (Image × CaptureIO)),
      r.Reachable → r.recording = false → (∀ tick ∈ ticks, tick.2.succeeds = true) →
      ((r.Start width height none).recorder.captureAll ticks).FrameCount =
        min (ticks.length : Int) r.maxFrames) ∧
    (∀ (r : GIFRecorder) (screens : List Image), r.Reachable → r.recording = false →
      (r.Start.captureAll screens).FrameCount = min (screens.length : Int) r.maxFrames ∧
      ((r.Start.captureAll screens).frames.length : Int) =
        min (screens.length : Int) r.maxFrames ∧
      (∀ (createErr encodeErr : Option Error) (images : List Paletted) (delays : List Int),
        Call.gifEncodeAll images delays ∈
          ((r.Start.captureAll screens).SaveGIF createErr encodeErr).calls →
        (images.length : Int) = min (screens.length : Int) r.maxFrames) ∧
      (∀ encodeErr : Option Error, 0 < screens.length →
        Call.gifEncodeAll (r.Start.captureAll screens).frames (r.Start.captureAll screens).delays ∈
          ((r.Start.captureAll screens).SaveGIF none encodeErr).calls)) ∧
    (∀ (r : WebPRecorder) (screens : List Image), r.Reachable → r.recording = false →
      (r.Start.captureAll screens).FrameCount = min (screens.length : Int) r.maxFrames ∧
      ((r.Start.captureAll screens).frames.length : Int) =
        min (screens.length : Int) r.maxFrames ∧
      (∀ (createErr encodeErr : Option Error) (images : List Paletted)
          (durations disposals : List Nat) (loopCount backgroundColor : Nat),
        Call.webpEncodeAll images durations disposals loopCount backgroundColor ∈
          ((r.Start.captureAll screens).SaveWebP createErr encodeErr).calls →
        (images.length : Int) = min (screens.length : Int) r.maxFrames) ∧
      (∀ encodeErr : Option Error, 0 < screens.length →
        Call.webpEncodeAll (r.Start.captureAll screens).frames
            (List.replicate (r.Start.captureAll screens).frames.length
              (uint (r.Start.captureAll screens).frameDelay))
            (List.replicate (r.Start.captureAll screens).frames.length 0) 0 0 ∈
          ((r.Start.captureAll screens).SaveWebP none encodeErr).calls)) := by
  refine ⟨?_, ?_, ?_⟩
  · intro r width height ticks hreach hidle hall
    exact (MJPEGRecorder.mjpeg_session_spec r width height ticks hreach hidle hall).1
  · intro r screens hreach _
    obtain ⟨h1, -, -, h4⟩ := GIFRecorder.gif_session_spec r screens hreach
    have hpos : 0 < r.maxFrames := (GIFRecorder.gif_inv_of_reachable hreach).1
    refine ⟨h1, h4, ?_, ?_⟩
    · intro createErr encodeErr images delays hmem
      rw [(GIFRecorder.gif_save_calls _ createErr encodeErr images delays hmem).1]
      exact h4
    · intro encodeErr hN
      have hne : (r.Start.captureAll screens).frames.length ≠ 0 := by
        intro h0
        rw [h0] at h4
        have : (0 : Int) < min (screens.length : Int) r.maxFrames :=
          lt_min (by exact_mod_cast hN) hpos
        simp at h4
        omega
      simp [GIFRecorder.SaveGIF, hne]
  · intro r screens hreach _
    obtain ⟨h1, -, -, h4⟩ := WebPRecorder.webp_session_spec r screens hreach
    have hpos : 0 < r.maxFrames := (WebPRecorder.webp_inv_of_reachable hreach).1
    refine ⟨h1, h4, ?_, ?_⟩
    · intro createErr encodeErr images durations disposals loopCount backgroundColor hmem
      rw [(WebPRecorder.webp_save_calls _ createErr encodeErr images durations disposals loopCount
        backgroundColor hmem).1]
      exact h4
    · intro encodeErr hN
      have hne : (r.Start.captureAll screens).frames.length ≠ 0 := by
        intro h0
        rw [h0] at h4
        have : (0 : Int) < min (screens.length : Int) r.maxFrames :=
          lt_min (by exact_mod_cast hN) hpos
        simp at h4
        omega
      simp [WebPRecorder.SaveWebP, hne]

/-- Witness of C1: a recorder limited to two frames counts two frames after
three successful captures, and a GIF and a WebP recorder limited to two frames
hold two frames after three captures. -/
theorem C1_frame_count_is_min_witness :
    (((NewMJPEGRecorder 2 30 "out.avi" 85).Start 640 480 none).recorder.captureAll
        [(screen2x1, ioOk), (screen2x1, ioOk), (screen2x1, ioOk)]).FrameCount = 2 ∧
    ((NewGIFRecorder 2 30 "out.gif").Start.captureAll
        [screen2x1, screen2x1, screen2x1]).frames.length = 2 ∧
    ((NewWebPRecorder 2 30 "out.webp").Start.captureAll
        [screen2x1, screen2x1, screen2x1]).frames.length = 2 := by
  refine ⟨?_, ?_, ?_⟩
  · have h := C1_frame_count_is_min.1 (NewMJPEGRecorder 2 30 "out.avi" 85) 640 480
      [(screen2x1, ioOk), (screen2x1, ioOk), (screen2x1, ioOk)]
      (MJPEGRecorder.Reachable.new 2 30 "out.avi" 85 (by decide)) rfl (by decide)
    rw [h]
    decide
  · have h := (C1_frame_count_is_min.2.1 (NewGIFRecorder 2 30 "out.gif")
      [screen2x1, screen2x1, screen2x1]
      (GIFRecorder.Reachable.new 2 30 "out.gif" (by decide)) rfl).2.1
    have h2 : min (([screen2x1, screen2x1, screen2x1] : List Image).length : Int)
        (NewGIFRecorder 2 30 "out.gif").maxFrames = 2 := by decide
    rw [h2] at h
    exact_mod_cast h
  · have h := (C1_frame_count_is_min.2.2 (NewWebPRecorder 2 30 "out.webp")
      [screen2x1, screen2x1, screen2x1]
      (WebPRecorder.Reachable.new 2 30 "out.webp" (by decide)) rfl).2.1
    have h2 : min (([screen2x1, screen2x1, screen2x1] : List Image).length : Int)
        (NewWebPRecorder 2 30 "out.webp").maxFrames = 2 := by decide
    rw [h2] at h
    exact_mod_cast h

/-- C2: a recording recorder whose count has reached its positive frame limit
captures nothing on the next `CaptureFrame`: no outside call reads pixels,
encodes or appends, every field but `recording` keeps its value and the
recorder is idle afterwards; for the MJPEG recorder (in a reachable state) the
only outside call is one `Close` of its writer and the call returns what that
`Close` answered. With `maxFrames = 10`, the state after `Start` and ten
successful captures is such a state, so the eleventh call behaves this way. -/
theorem C2_capture_at_limit_stops :
    (∀ (r : MJPEGRecorder) (screen : Image) (io : CaptureIO),
      r.Reachable → r.recording = true → 0 < r.maxFrames → r.frameCount ≥ r.maxFrames →
      ∃ w, r.writer = some w ∧
        r.CaptureFrame screen io =
          { recorder := { r with recording := false }, out := .returned io.close,
            calls := [Call.writerClose w] } ∧
        (r.CaptureFrame screen io).recorder.IsRecording = false ∧
        (r.CaptureFrame screen io).recorder.FrameCount = r.FrameCount) ∧
    (∀ (r : GIFRecorder) (screen : Image),
      r.recording = true → 0 < r.maxFrames → r.frameCount ≥ r.maxFrames →
      r.CaptureFrame screen =
        { recorder := { r with recording := false }, out := .returned (), calls := [] }) ∧
    (∀ (r : WebPRecorder) (screen : Image),
      r.recording = true → 0 < r.maxFrames → r.frameCount ≥ r.maxFrames →
      r.CaptureFrame screen =
        { recorder := { r with recording := false }, out := .returned (), calls := [] }) ∧
    (∀ (fps : Int) (outputPath : String) (jpegQuality width height : Int)
        (ticks : List (Image × CaptureIO)),
      ticks.length = 10 → (∀ tick ∈ ticks, tick.2.succeeds = true) →
      (((NewMJPEGRecorder 10 fps outputPath jpegQuality).Start width height none).recorder.captureAll
          ticks).Reachable ∧
      (((NewMJPEGRecorder 10 fps outputPath jpegQuality).Start width height none).recorder.captureAll
          ticks).recording = true ∧
      (((NewMJPEGRecorder 10 fps outputPath jpegQuality).Start width height none).recorder.captureAll
          ticks).maxFrames = 10 ∧
      (((NewMJPEGRecorder 10 fps outputPath jpegQuality).Start width height none).recorder.captureAll
          ticks).frameCount = 10) ∧
    (∀ (fps : Int) (outputPath : String) (screens : List Image), screens.length = 10 →
      ((NewGIFRecorder 10 fps outputPath).Start.captureAll screens).recording = true ∧
      ((NewGIFRecorder 10 fps outputPath).Start.captureAll screens).maxFrames = 10 ∧
      ((NewGIFRecorder 10 fps outputPath).Start.captureAll screens).frameCount = 10) ∧
    (∀ (fps : Int) (outputPath : String) (screens : List Image), screens.length = 10 →
      ((NewWebPRecorder 10 fps outputPath).Start.captureAll screens).recording = true ∧
      ((NewWebPRecorder 10 fps outputPath).Start.captureAll screens).maxFrames = 10 ∧
      ((NewWebPRecorder 10 fps outputPath).Start.captureAll screens).frameCount = 10) := by
  refine ⟨?_, ?_, ?_, ?_, ?_, ?_⟩
  · intro r screen io hreach hr hm hl
    obtain ⟨w, hw⟩ :=
      Option.isSome_iff_exists.mp ((MJPEGRecorder.mjpeg_inv_of_reachable hreach).2.2.2.2 hr)
    have heq : r.CaptureFrame screen io =
        { recorder := { r with recording := false }, out := .returned io.close,
          calls := [Call.writerClose w] } := by
      rw [MJPEGRecorder.mjpeg_capture_limit r screen io hr hm hl]
      simp [MJPEGRecorder.Stop, hr, hw]
    refine ⟨w, hw, heq, ?_, ?_⟩ <;> rw [heq] <;> rfl
  · intro r screen hr hm hl
    rw [GIFRecorder.gif_capture_limit r screen hr hm hl]
    rfl
  · intro r screen hr hm hl
    rw [WebPRecorder.webp_capture_limit r screen hr hm hl]
    rfl
  · intro fps outputPath jpegQuality width height ticks hlen hall
    have hreach := MJPEGRecorder.Reachable.new 10 fps outputPath jpegQuality (by decide)
    obtain ⟨h1, h2, h3⟩ := MJPEGRecorder.mjpeg_session_spec _ width height ticks hreach rfl hall
    have hmax : (NewMJPEGRecorder 10 fps outputPath jpegQuality).maxFrames = 10 := rfl
    rw [hmax] at h1 h2 h3
    rw [hlen] at h1 h2
    refine ⟨MJPEGRecorder.mjpeg_reachable_captureAll ticks _
      (MJPEGRecorder.Reachable.start width height none hreach), ?_, h3, ?_⟩
    · rw [h2]; decide
    · rw [h1]; decide
  · intro fps outputPath screens hlen
    have hreach := GIFRecorder.Reachable.new 10 fps outputPath (by decide)
    obtain ⟨h1, h2, h3, -⟩ := GIFRecorder.gif_session_spec _ screens hreach
    have hmax : (NewGIFRecorder 10 fps outputPath).maxFrames = 10 := rfl
    rw [hmax] at h1 h2 h3
    rw [hlen] at h1 h2
    refine ⟨?_, h3, ?_⟩
    · rw [h2]; decide
    · rw [h1]; decide
  · intro fps outputPath screens hlen
    have hreach := WebPRecorder.Reachable.new 10 fps outputPath (by decide)
    obtain ⟨h1, h2, h3, -⟩ := WebPRecorder.webp_session_spec _ screens hreach
    have hmax : (NewWebPRecorder 10 fps outputPath).maxFrames = 10 := rfl
    rw [hmax] at h1 h2 h3
    rw [hlen] at h1 h2
    refine ⟨?_, h3, ?_⟩
    · rw [h2]; decide
    · rw [h1]; decide

/-- Witness of C2: a recorder limited to one frame, after `Start` and one
successful capture, closes its writer on the next `CaptureFrame` (the only
outside call), returns what `Close` answered and is idle with one frame
counted. -/
theorem C2_capture_at_limit_stops_witness :
    ((((NewMJPEGRecorder 1 30 "out.avi" 85).Start 640 480 none).recorder.captureAll
        [(screen2x1, ioOk)]).CaptureFrame screen2x1 ioOk).calls =
      [Call.writerClose { path := "out.avi", width := 640, height := 480, fps := 30 }] ∧
    ((((NewMJPEGRecorder 1 30 "out.avi" 85).Start 640 480 none).recorder.captureAll
        [(screen2x1, ioOk)]).CaptureFrame screen2x1 ioOk).out = .returned ioOk.close ∧
    ((((NewMJPEGRecorder 1 30 "out.avi" 85).Start 640 480 none).recorder.captureAll
        [(screen2x1, ioOk)]).CaptureFrame screen2x1 ioOk).recorder.IsRecording = false ∧
    ((((NewMJPEGRecorder 1 30 "out.avi" 85).Start 640 480 none).recorder.captureAll
        [(screen2x1, ioOk)]).CaptureFrame screen2x1 ioOk).recorder.FrameCount = 1 := by
  obtain ⟨w, hw, heq, hrec, hcount⟩ := C2_capture_at_limit_stops.1
    (((NewMJPEGRecorder 1 30 "out.avi" 85).Start 640 480 none).recorder.captureAll
      [(screen2x1, ioOk)]) screen2x1 ioOk
    (MJPEGRecorder.mjpeg_reachable_captureAll _ _ (MJPEGRecorder.Reachable.start 640 480 none
      (MJPEGRecorder.Reachable.new 1 30 "out.avi" 85 (by decide))))
    (by decide) (by decide) (by decide)
  have hwriter : (((NewMJPEGRecorder 1 30 "out.avi" 85).Start 640 480 none).recorder.captureAll
      [(screen2x1, ioOk)]).writer =
      some { path := "out.avi", width := 640, height := 480, fps := 30 } := by decide
  have hweq : w = { path := "out.avi", width := 640, height := 480, fps := 30 } :=
    Option.some.inj (hw.symm.trans hwriter)
  refine ⟨?_, ?_, hrec, ?_⟩
  · rw [heq, hweq]
  · rw [heq]
  · rw [hcount]
    decide

/-- C3: on every `MJPEGRecorder` that is recording, `Start` with any width and
height returns nil, makes no outside call (no AVI writer is opened) and leaves
every field as it was, so `FrameCount()` after it is `FrameCount()` before. -/
theorem C3_mjpeg_start_while_recording (r : MJPEGRecorder) (width height : Int)
    (newErr : Option Error) (h : r.recording = true) :
    r.Start width height newErr = { recorder := r, out := .returned none, calls := [] } ∧
      (r.Start width height newErr).recorder.FrameCount = r.FrameCount := by
  have heq : r.Start width height newErr =
      { recorder := r, out := .returned none, calls := [] } := by
    simp [MJPEGRecorder.Start, h]
  exact ⟨heq, by rw [heq]⟩

/-- Witness of C3: a second `Start` after one captured frame opens nothing and
keeps the count at one. -/
theorem C3_mjpeg_start_while_recording_witness :
    (((NewMJPEGRecorder 5 30 "out.avi" 85).Start 640 480 none).recorder.CaptureFrame
        screen2x1 ioOk).recorder.recording = true ∧
    ((((NewMJPEGRecorder 5 30 "out.avi" 85).Start 640 480 none).recorder.CaptureFrame
        screen2x1 ioOk).recorder.Start 320 200 none).calls = [] ∧
    ((((NewMJPEGRecorder 5 30 "out.avi" 85).Start 640 480 none).recorder.CaptureFrame
        screen2x1 ioOk).recorder.Start 320 200 none).recorder.FrameCount = 1 := by
  have hrec : (((NewMJPEGRecorder 5 30 "out.avi" 85).Start 640 480 none).recorder.CaptureFrame
      screen2x1 ioOk).recorder.recording = true := by decide
  obtain ⟨heq, hcount⟩ := C3_mjpeg_start_while_recording
    (((NewMJPEGRecorder 5 30 "out.avi" 85).Start 640 480 none).recorder.CaptureFrame
      screen2x1 ioOk).recorder 320 200 none hrec
  refine ⟨hrec, by rw [heq], ?_⟩
  rw [hcount]
  decide

/-- C4, the code at a failing input: a GIF recorder and a WebP recorder that
are recording and hold one captured frame are emptied by a second `Start`:
afterwards `FrameCount()` is 0 and no frame (and no delay) is buffered. -/
theorem C4_start_while_recording_resets :
    ((NewGIFRecorder 10 30 "out.gif").Start.CaptureFrame screen2x1).recorder.IsRecording = true ∧
    ((NewGIFRecorder 10 30 "out.gif").Start.CaptureFrame screen2x1).recorder.FrameCount = 1 ∧
    ((NewGIFRecorder 10 30 "out.gif").Start.CaptureFrame screen2x1).recorder.frames.length = 1 ∧
    ((NewGIFRecorder 10 30 "out.gif").Start.CaptureFrame screen2x1).recorder.delays = [3] ∧
    ((NewGIFRecorder 10 30 "out.gif").Start.CaptureFrame screen2x1).recorder.Start.FrameCount = 0 ∧
    ((NewGIFRecorder 10 30 "out.gif").Start.CaptureFrame screen2x1).recorder.Start.frames = [] ∧
    ((NewGIFRecorder 10 30 "out.gif").Start.CaptureFrame screen2x1).recorder.Start.delays = [] ∧
    ((NewWebPRecorder 10 30 "out.webp").Start.CaptureFrame screen2x1).recorder.IsRecording = true ∧
    ((NewWebPRecorder 10 30 "out.webp").Start.CaptureFrame screen2x1).recorder.FrameCount = 1 ∧
    ((NewWebPRecorder 10 30 "out.webp").Start.CaptureFrame screen2x1).recorder.frames.length = 1 ∧
    ((NewWebPRecorder 10 30 "out.webp").Start.CaptureFrame screen2x1).recorder.Start.FrameCount = 0 ∧
    ((NewWebPRecorder 10 30 "out.webp").Start.CaptureFrame screen2x1).recorder.Start.frames = [] := by
  decide

/-- C5: on every `MJPEGRecorder` that is not recording, `Stop` returns nil,
makes no outside call (no `Close`) and leaves every field as it was; on a
freshly constructed recorder `FrameCount()` is 0 afterwards; and in every
state a second `Stop` right after a first one returns nil, makes no outside
call and changes nothing, whatever the first `Close` answered. -/
theorem C5_mjpeg_stop_when_idle :
    (∀ (r : MJPEGRecorder) (closeErr : Option Error), r.recording = false →
      r.Stop closeErr = { recorder := r, out := .returned none, calls := [] }) ∧
    (∀ (maxFrames fps : Int) (outputPath : String) (jpegQuality : Int)
        (closeErr : Option Error),
      ((NewMJPEGRecorder maxFrames fps outputPath jpegQuality).Stop closeErr).recorder.FrameCount
        = 0) ∧
    (∀ (r : MJPEGRecorder) (firstClose secondClose : Option Error),
      (r.Stop firstClose).recorder.Stop secondClose =
        { recorder := (r.Stop firstClose).recorder, out := .returned none, calls := [] }) := by
  have hidle : ∀ (r : MJPEGRecorder) (closeErr : Option Error), r.recording = false →
      r.Stop closeErr = { recorder := r, out := .returned none, calls := [] } := by
    intro r closeErr h
    simp [MJPEGRecorder.Stop, h]
  refine ⟨hidle, ?_, ?_⟩
  · intro maxFrames fps outputPath jpegQuality closeErr
    rw [hidle _ closeErr rfl]
    rfl
  · intro r firstClose secondClose
    apply hidle
    cases hr : r.recording with
    | false => rw [hidle r firstClose hr]; exact hr
    | true => rw [MJPEGRecorder.mjpeg_stop_recorder r firstClose hr]

/-- Witness of C5: `Stop` on a recorder stopped before, whose `Close` had
failed, returns nil without any outside call. -/
theorem C5_mjpeg_stop_when_idle_witness :
    (((NewMJPEGRecorder 5 30 "out.avi" 85).Start 640 480 none).recorder.Stop
        (some "close failed")).recorder.recording = false ∧
    ((((NewMJPEGRecorder 5 30 "out.avi" 85).Start 640 480 none).recorder.Stop
        (some "close failed")).recorder.Stop (some "close failed")).out = .returned none ∧
    ((((NewMJPEGRecorder 5 30 "out.avi" 85).Start 640 480 none).recorder.Stop
        (some "close failed")).recorder.Stop (some "close failed")).calls = [] := by
  have hrec : (((NewMJPEGRecorder 5 30 "out.avi" 85).Start 640 480 none).recorder.Stop
      (some "close failed")).recorder.recording = false := by decide
  have heq := C5_mjpeg_stop_when_idle.1
    (((NewMJPEGRecorder 5 30 "out.avi" 85).Start 640 480 none).recorder.Stop
      (some "close failed")).recorder (some "close failed") hrec
  exact ⟨hrec, by rw [heq], by rw [heq]⟩

/-- C6, the code at a failing input: constructed with `maxFrames = 0`, each
recorder (and the one `WrapGame` builds) has the frame limit 600; after
`Start` and 601 captures that all succeed it is no longer recording and
`FrameCount()` is 600, not 601. -/
theorem C6_zero_max_frames_is_600 :
    (NewMJPEGRecorder 0 30 "out.avi" 85).maxFrames = 600 ∧
    (((NewMJPEGRecorder 0 30 "out.avi" 85).Start 640 480 none).recorder.captureAll
        (List.replicate 601 (screen2x1, ioOk))).IsRecording = false ∧
    (((NewMJPEGRecorder 0 30 "out.avi" 85).Start 640 480 none).recorder.captureAll
        (List.replicate 601 (screen2x1, ioOk))).FrameCount = 600 ∧
    (WrapGame.recorder "out.avi" 85).maxFrames = 600 ∧
    (((WrapGame.recorder "out.avi" 85).Start 640 480 none).recorder.captureAll
        (List.replicate 601 (screen2x1, ioOk))).IsRecording = false ∧
    (((WrapGame.recorder "out.avi" 85).Start 640 480 none).recorder.captureAll
        (List.replicate 601 (screen2x1, ioOk))).FrameCount = 600 ∧
    (NewGIFRecorder 0 30 "out.gif").maxFrames = 600 ∧
    ((NewGIFRecorder 0 30 "out.gif").Start.captureAll
        (List.replicate 601 screen2x1)).IsRecording = false ∧
    ((NewGIFRecorder 0 30 "out.gif").Start.captureAll
        (List.replicate 601 screen2x1)).FrameCount = 600 ∧
    (NewWebPRecorder 0 30 "out.webp").maxFrames = 600 ∧
    ((NewWebPRecorder 0 30 "out.webp").Start.captureAll
        (List.replicate 601 screen2x1)).IsRecording = false ∧
    ((NewWebPRecorder 0 30 "out.webp").Start.captureAll
        (List.replicate 601 screen2x1)).FrameCount = 600 := by
  have hall : ∀ tick ∈ List.replicate 601 (screen2x1, ioOk), tick.2.succeeds = true := by
    intro tick hmem
    rw [List.eq_of_mem_replicate hmem]
    rfl
  have hm := MJPEGRecorder.mjpeg_session_spec (NewMJPEGRecorder 0 30 "out.avi" 85) 640 480
    (List.replicate 601 (screen2x1, ioOk))
    (MJPEGRecorder.Reachable.new 0 30 "out.avi" 85 (by decide)) rfl hall
  have hg := GIFRecorder.gif_session_spec (NewGIFRecorder 0 30 "out.gif")
    (List.replicate 601 screen2x1) (GIFRecorder.Reachable.new 0 30 "out.gif" (by decide))
  have hw := WebPRecorder.webp_session_spec (NewWebPRecorder 0 30 "out.webp")
    (List.replicate 601 screen2x1) (WebPRecorder.Reachable.new 0 30 "out.webp" (by decide))
  have h1 : (NewMJPEGRecorder 0 30 "out.avi" 85).maxFrames = 600 := rfl
  have h2 : (NewGIFRecorder 0 30 "out.gif").maxFrames = 600 := rfl
  have h3 : (NewWebPRecorder 0 30 "out.webp").maxFrames = 600 := rfl
  rw [List.length_replicate, h1] at hm
  rw [List.length_replicate, h2] at hg
  rw [List.length_replicate, h3] at hw
  have hmin : min ((601 : Nat) : Int) 600 = 600 := by decide
  have hdec : decide (((601 : Nat) : Int) ≤ 600) = false := by decide
  rw [hmin, hdec] at hm hg hw
  exact ⟨h1, hm.2.1, hm.1, h1, hm.2.1, hm.1, h2, hg.2.1, hg.1, h3, hw.2.1, hw.1⟩

/-- C7, counterexample: for the requested qualities 150 and -5 the recorder
stores 85, where clamping to the nearest bound of `[1, 100]` gives 100 and 1. -/
theorem C7_quality_not_clamped :
    (NewMJPEGRecorder 600 30 "out.avi" 150).jpegQuality = 85 ∧ specQuality 150 = 100 ∧
    (NewMJPEGRecorder 600 30 "out.avi" (-5)).jpegQuality = 85 ∧ specQuality (-5) = 1 ∧
    ¬ (∀ jpegQuality : Int,
      (NewMJPEGRecorder 600 30 "out.avi" jpegQuality).jpegQuality = specQuality jpegQuality) := by
  refine ⟨by decide, by decide, by decide, by decide, ?_⟩
  intro h
  exact absurd (h 150) (by decide)

/-- C7 as amended: the quality `NewMJPEGRecorder` stores is 85 when the
requested quality is zero, negative or above 100, and the requested quality
itself when it lies in `[1, 100]`; no method changes the stored quality, and
every `jpeg.Encode` call of `CaptureFrame` is given the stored quality (one
such call is made whenever the recorder is recording below its limit). -/
theorem C7_quality_default_or_kept :
    (∀ (maxFrames fps : Int) (outputPath : String) (jpegQuality : Int),
      (jpegQuality ≤ 0 ∨ jpegQuality > 100 →
        (NewMJPEGRecorder maxFrames fps outputPath jpegQuality).jpegQuality = 85) ∧
      (1 ≤ jpegQuality ∧ jpegQuality ≤ 100 →
        (NewMJPEGRecorder maxFrames fps outputPath jpegQuality).jpegQuality = jpegQuality)) ∧
    (∀ (r : MJPEGRecorder) (width height : Int) (newErr : Option Error),
      (r.Start width height newErr).recorder.jpegQuality = r.jpegQuality) ∧
    (∀ (r : MJPEGRecorder) (closeErr : Option Error),
      (r.Stop closeErr).recorder.jpegQuality = r.jpegQuality) ∧
    (∀ (r : MJPEGRecorder) (screen : Image) (io : CaptureIO),
      (r.CaptureFrame screen io).recorder.jpegQuality = r.jpegQuality ∧
      (∀ (img : RGBA) (quality : Int),
        Call.jpegEncode img quality ∈ (r.CaptureFrame screen io).calls →
        quality = r.jpegQuality) ∧
      (r.recording = true → ¬ (r.maxFrames > 0 ∧ r.frameCount ≥ r.maxFrames) →
        ∃ img, Call.jpegEncode img r.jpegQuality ∈ (r.CaptureFrame screen io).calls)) := by
  have hstop : ∀ (r : MJPEGRecorder) (closeErr : Option Error),
      (r.Stop closeErr).recorder.jpegQuality = r.jpegQuality ∧
      ∀ (img : RGBA) (quality : Int), Call.jpegEncode img quality ∉ (r.Stop closeErr).calls := by
    intro r closeErr
    unfold MJPEGRecorder.Stop
    split_ifs
    · simp
    · cases r.writer <;> simp
  refine ⟨?_, ?_, fun r closeErr => (hstop r closeErr).1, ?_⟩
  · intro maxFrames fps outputPath jpegQuality
    constructor
    · intro h
      simp [NewMJPEGRecorder, h]
    · intro h
      have hn : ¬ (jpegQuality ≤ 0 ∨ jpegQuality > 100) := by omega
      simp only [NewMJPEGRecorder, hn, if_false]
  · intro r width height newErr
    unfold MJPEGRecorder.Start
    split_ifs
    · rfl
    · cases newErr <;> rfl
  · intro r screen io
    unfold MJPEGRecorder.CaptureFrame
    split_ifs with hrec hlim
    · simp at hrec
      simp [hrec]
    · simp at hrec
      refine ⟨(hstop r io.close).1, fun img quality hmem => ?_, fun _ hn => absurd hlim hn⟩
      exact absurd hmem ((hstop r io.close).2 img quality)
    · simp at hrec
      cases hj : io.jpeg with
      | error err => simp
      | ok buf =>
        cases hw : r.writer with
        | none => simp
        | some wr => cases ha : io.addFrame <;> simp

/-- Witness of C7 as amended: the requested quality 150 is stored as 85. -/
theorem C7_quality_default_or_kept_witness :
    (NewMJPEGRecorder 600 30 "out.avi" 150).jpegQuality = 85 :=
  (C7_quality_default_or_kept.1 600 30 "out.avi" 150).1 (Or.inr (by decide))

/-- C8: with a stored fps `f >= 1`, every delay `GIFRecorder.CaptureFrame`
appends is the truncated quotient `100 / f`, so the delays of a session are
that one value, one per buffered frame; whenever `SaveWebP` reaches the
encoder (frames are buffered and the file is created) it hands it the buffered
frames and a list of durations holding the truncated quotient `1000 / f` once
per frame, and it makes no other encoder call; no method changes the fps; a
recorder built by a constructor has `f >= 1`, and for fps 30 the two values are
3 and 33. -/
theorem C8_uniform_frame_delay :
    (∀ (r : GIFRecorder) (screen : Image), 1 ≤ r.fps →
      ((r.CaptureFrame screen).recorder.delays = r.delays ∨
        (r.CaptureFrame screen).recorder.delays = r.delays ++ [Int.tdiv 100 r.fps]) ∧
      (r.recording = true → ¬ (r.maxFrames > 0 ∧ r.frameCount ≥ r.maxFrames) →
        (r.CaptureFrame screen).recorder.delays = r.delays ++ [Int.tdiv 100 r.fps])) ∧
    (∀ (r : GIFRecorder) (screens : List Image), 1 ≤ r.fps →
      ∀ d ∈ (r.Start.captureAll screens).delays, d = Int.tdiv 100 r.fps) ∧
    (∀ (r : WebPRecorder) (createErr encodeErr : Option Error) (images : List Paletted)
        (durations disposals : List Nat) (loopCount backgroundColor : Nat),
      r.Reachable → 1 ≤ r.fps →
      Call.webpEncodeAll images durations disposals loopCount backgroundColor ∈
        (r.SaveWebP createErr encodeErr).calls →
      images = r.frames ∧ durations.length = images.length ∧
        ∀ d ∈ durations, (d : Int) = Int.tdiv 1000 r.fps) ∧
    (∀ (maxFrames fps : Int) (outputPath : String),
      1 ≤ (NewGIFRecorder maxFrames fps outputPath).fps ∧
      1 ≤ (NewWebPRecorder maxFrames fps outputPath).fps ∧
      (NewWebPRecorder maxFrames fps outputPath).frameDelay =
        Int.tdiv 1000 (NewWebPRecorder maxFrames fps outputPath).fps) ∧
    (∀ (maxFrames : Int) (outputPath : String),
      Int.tdiv 100 (NewGIFRecorder maxFrames 30 outputPath).fps = 3 ∧
      Int.tdiv 1000 (NewWebPRecorder maxFrames 30 outputPath).fps = 33 ∧
      uint (NewWebPRecorder maxFrames 30 outputPath).frameDelay = 33) ∧
    (∀ (r : WebPRecorder) (encodeErr : Option Error), r.Reachable → r.frames ≠ [] →
      1 ≤ r.fps ∧
      (r.SaveWebP none encodeErr).calls =
        [Call.osCreate r.outputPath,
         Call.webpEncodeAll r.frames
           (List.replicate r.frames.length (Int.tdiv 1000 r.fps).toNat)
           (List.replicate r.frames.length 0) 0 0,
         Call.fileClose]) ∧
    (∀ (r : WebPRecorder) (screens : List Image) (encodeErr : Option Error),
      r.Reachable → 0 < screens.length →
      ((r.Start.captureAll screens).frames.length : Int) =
        min (screens.length : Int) r.maxFrames ∧
      0 < (r.Start.captureAll screens).frames.length ∧
      ((r.Start.captureAll screens).SaveWebP none encodeErr).calls =
        [Call.osCreate r.outputPath,
         Call.webpEncodeAll (r.Start.captureAll screens).frames
           (List.replicate (r.Start.captureAll screens).frames.length
             (Int.tdiv 1000 r.fps).toNat)
           (List.replicate (r.Start.captureAll screens).frames.length 0) 0 0,
         Call.fileClose]) ∧
    (∀ (r : GIFRecorder) (screens : List Image), r.Reachable →
      ((r.Start.captureAll screens).frames.length : Int) =
        min (screens.length : Int) r.maxFrames ∧
      (r.Start.captureAll screens).delays =
        List.replicate (r.Start.captureAll screens).frames.length (Int.tdiv 100 r.fps)) ∧
    (∀ (r : GIFRecorder) (screen : Image) (createErr encodeErr : Option Error),
      r.Start.fps = r.fps ∧ r.Stop.fps = r.fps ∧ (r.CaptureFrame screen).recorder.fps = r.fps ∧
      (r.SaveGIF createErr encodeErr).recorder.fps = r.fps) ∧
    (∀ (r : WebPRecorder) (screen : Image) (createErr encodeErr : Option Error),
      r.Start.fps = r.fps ∧ r.Stop.fps = r.fps ∧ (r.CaptureFrame screen).recorder.fps = r.fps ∧
      (r.SaveWebP createErr encodeErr).recorder.fps = r.fps) := by
  have hgifAll : ∀ (r : GIFRecorder) (screens : List Image),
      ∀ d ∈ (r.Start.captureAll screens).delays, d = Int.tdiv 100 r.fps := by
    intro r screens d hd
    rcases GIFRecorder.gif_captureAll_delays screens r.Start d hd with h | h
    · simp [GIFRecorder.Start] at h
    · exact h
  have hmade : ∀ (r : WebPRecorder) (encodeErr : Option Error), r.Reachable → r.frames ≠ [] →
      1 ≤ r.fps ∧
      (r.SaveWebP none encodeErr).calls =
        [Call.osCreate r.outputPath,
         Call.webpEncodeAll r.frames
           (List.replicate r.frames.length (Int.tdiv 1000 r.fps).toNat)
           (List.replicate r.frames.length 0) 0 0,
         Call.fileClose] := by
    intro r encodeErr hreach hne
    obtain ⟨-, -, -, -, hf, hdelay⟩ := WebPRecorder.webp_inv_of_reachable hreach
    refine ⟨hf, ?_⟩
    rw [WebPRecorder.webp_save_calls_made r encodeErr hne, hdelay, uint_tdiv_1000 hf]
  refine ⟨?_, ?_, ?_, ?_, ?_, hmade, ?_, ?_, ?_, ?_⟩
  · intro r screen hf
    refine ⟨(GIFRecorder.gif_capture_delays r screen).2, ?_⟩
    intro hr hn
    have hf0 : r.fps ≠ 0 := by omega
    simp [GIFRecorder.CaptureFrame, hr, hn, hf0]
  · intro r screens _ d hd
    exact hgifAll r screens d hd
  · intro r createErr encodeErr images durations disposals loopCount backgroundColor
      hreach hf hmem
    obtain ⟨himg, hdur⟩ := WebPRecorder.webp_save_calls r createErr encodeErr images durations
      disposals loopCount backgroundColor hmem
    have hdelay := (WebPRecorder.webp_inv_of_reachable hreach).2.2.2.2.2
    obtain ⟨hlo, hhi⟩ := tdiv_1000_bounds hf
    refine ⟨himg, by rw [hdur, himg, List.length_replicate], ?_⟩
    intro d hd
    rw [hdur] at hd
    rw [List.eq_of_mem_replicate hd, hdelay]
    unfold uint
    rw [Int.emod_eq_of_lt hlo (by norm_num; omega)]
    exact Int.toNat_of_nonneg hlo
  · intro maxFrames fps outputPath
    refine ⟨?_, ?_, rfl⟩
    · simp only [NewGIFRecorder]
      split_ifs <;> omega
    · simp only [NewWebPRecorder]
      split_ifs <;> omega
  · intro maxFrames outputPath
    have hg : (NewGIFRecorder maxFrames 30 outputPath).fps = 30 := rfl
    have hw : (NewWebPRecorder maxFrames 30 outputPath).fps = 30 := rfl
    have hd : (NewWebPRecorder maxFrames 30 outputPath).frameDelay = 33 := rfl
    rw [hg, hw, hd]
    exact ⟨by decide, by decide, by decide⟩
  · intro r screens encodeErr hreach hN
    obtain ⟨-, -, -, hlen⟩ := WebPRecorder.webp_session_spec r screens hreach
    have hpos : 0 < r.maxFrames := (WebPRecorder.webp_inv_of_reachable hreach).1
    have hposlen : 0 < (r.Start.captureAll screens).frames.length := by
      have : (0 : Int) < min (screens.length : Int) r.maxFrames :=
        lt_min (by exact_mod_cast hN) hpos
      rw [← hlen] at this
      exact_mod_cast this
    have hne : (r.Start.captureAll screens).frames ≠ [] := by
      intro h
      rw [h] at hposlen
      exact absurd hposlen (by decide)
    obtain ⟨hfps, hpath⟩ := WebPRecorder.webp_captureAll_static screens r.Start
    have hcalls := (hmade (r.Start.captureAll screens) encodeErr
      (WebPRecorder.webp_reachable_captureAll screens _
        (WebPRecorder.Reachable.start hreach)) hne).2
    rw [hfps, hpath] at hcalls
    exact ⟨hlen, hposlen, hcalls⟩
  · intro r screens hreach
    obtain ⟨-, -, -, hlen⟩ := GIFRecorder.gif_session_spec r screens hreach
    have hinv := GIFRecorder.gif_inv_captureAll screens _
      (GIFRecorder.gif_inv_start r (GIFRecorder.gif_inv_of_reachable hreach))
    refine ⟨hlen, ?_⟩
    rw [List.eq_replicate_iff]
    exact ⟨hinv.2.2.2.2.1, hgifAll r screens⟩
  · intro r screen createErr encodeErr
    refine ⟨rfl, rfl, (GIFRecorder.gif_capture_delays r screen).1, ?_⟩
    unfold GIFRecorder.SaveGIF
    split_ifs
    · rfl
    · cases createErr <;> rfl
  · intro r screen createErr encodeErr
    refine ⟨rfl, rfl, (WebPRecorder.webp_capture_static r screen).1, ?_⟩
    unfold WebPRecorder.SaveWebP
    split_ifs
    · rfl
    · cases createErr <;> rfl

/-- Witness of C8: a GIF recorder built for 30 fps appends the delay 3 to each
of two captured frames, and `SaveWebP` on a WebP recorder built for 30 fps
that captured two frames hands the encoder these two frames with the durations
33 and 33. -/
theorem C8_uniform_frame_delay_witness :
    ((NewGIFRecorder 10 30 "out.gif").Start.captureAll [screen2x1, screen2x1]).delays = [3, 3] ∧
    (∀ d ∈ ((NewGIFRecorder 10 30 "out.gif").Start.captureAll [screen2x1, screen2x1]).delays,
      d = Int.tdiv 100 (NewGIFRecorder 10 30 "out.gif").fps) ∧
    (((NewWebPRecorder 10 30 "out.webp").Start.captureAll [screen2x1, screen2x1]).SaveWebP
        none none).calls =
      [Call.osCreate "out.webp",
       Call.webpEncodeAll
         ((NewWebPRecorder 10 30 "out.webp").Start.captureAll [screen2x1, screen2x1]).frames
         [33, 33] [0, 0] 0 0,
       Call.fileClose] ∧
    ((NewWebPRecorder 10 30 "out.webp").Start.captureAll [screen2x1, screen2x1]).frames.length
      = 2 := by
  have hw := (C8_uniform_frame_delay.2.2.2.2.2.2.1 (NewWebPRecorder 10 30 "out.webp")
    [screen2x1, screen2x1] none (WebPRecorder.Reachable.new 10 30 "out.webp" (by decide))
    (by decide)).2.2
  refine ⟨by decide, ?_, ?_, by decide⟩
  · exact C8_uniform_frame_delay.2.1 (NewGIFRecorder 10 30 "out.gif") [screen2x1, screen2x1]
      (by decide)
  · rw [hw]
    decide

/-- C9: on every recording `MJPEGRecorder` below its frame limit, a failing
`jpeg.Encode` makes `CaptureFrame` return that error after the pixel read and
the encode call only: `writer.AddFrame` is not called and every field
(`frameCount`, `recording`) keeps its value; a following `CaptureFrame` whose
outside calls succeed then captures a frame on a reachable recorder. -/
theorem C9_encode_failure_skips_frame (r : MJPEGRecorder) (screen : Image) (io : CaptureIO)
    (err : Error) (hrec : r.recording = true)
    (hbelow : ¬ (r.maxFrames > 0 ∧ r.frameCount ≥ r.maxFrames))
    (hfail : io.jpeg = .error err) :
    (r.CaptureFrame screen io).out = .returned (some err) ∧
      (r.CaptureFrame screen io).recorder = r ∧
      (r.CaptureFrame screen io).calls =
        [Call.readPixels (4 * screen.Bounds.Dx * screen.Bounds.Dy),
         Call.jpegEncode
           { Pix := screen.content, Stride := 4 * screen.Bounds.Dx, Rect := screen.Bounds }
           r.jpegQuality] ∧
      (∀ (w : AviWriter) (data : Bytes),
        Call.writerAddFrame w data ∉ (r.CaptureFrame screen io).calls) ∧
      (r.CaptureFrame screen io).recorder.FrameCount = r.FrameCount ∧
      (r.CaptureFrame screen io).recorder.IsRecording = true ∧
      (∀ (next : Image) (ioNext : CaptureIO), r.Reachable → ioNext.succeeds = true →
        ((r.CaptureFrame screen io).recorder.CaptureFrame next ioNext).out = .returned none ∧
        ((r.CaptureFrame screen io).recorder.CaptureFrame next ioNext).recorder.FrameCount =
          r.FrameCount + 1) := by
  have heq : r.CaptureFrame screen io =
      { recorder := r, out := .returned (some err),
        calls :=
          [Call.readPixels (4 * screen.Bounds.Dx * screen.Bounds.Dy),
           Call.jpegEncode
             { Pix := screen.content, Stride := 4 * screen.Bounds.Dx, Rect := screen.Bounds }
             r.jpegQuality] } := by
    unfold MJPEGRecorder.CaptureFrame
    simp only [hrec, Bool.not_true, Bool.false_eq_true, if_false, hbelow, hfail]
  rw [heq]
  refine ⟨rfl, rfl, rfl, ?_, rfl, hrec, ?_⟩
  · intro w data
    simp
  · intro next ioNext hreach hok
    obtain ⟨h1, h2, h3, h4, h5⟩ := MJPEGRecorder.mjpeg_inv_of_reachable hreach
    have hlt : r.frameCount < r.maxFrames := by
      by_contra hc
      exact hbelow ⟨h1, not_lt.mp hc⟩
    obtain ⟨wr, hw⟩ := Option.isSome_iff_exists.mp (h5 hrec)
    obtain ⟨g1, g2⟩ := MJPEGRecorder.mjpeg_capture_ok r next ioNext wr hrec hlt hw hok
    refine ⟨g2, ?_⟩
    rw [g1]
    exact wrapInt_of_isInt (by norm_num at h2 ⊢; omega) (by norm_num at h2 ⊢; omega)

/-- Witness of C9: a started recorder whose encode fails returns the error,
stays recording with no frame counted, and counts one frame on the next,
successful capture. -/
theorem C9_encode_failure_skips_frame_witness :
    (((NewMJPEGRecorder 5 30 "out.avi" 85).Start 640 480 none).recorder.CaptureFrame
        screen2x1 ioEncodeFails).out = .returned (some "encode failed") ∧
    (((NewMJPEGRecorder 5 30 "out.avi" 85).Start 640 480 none).recorder.CaptureFrame
        screen2x1 ioEncodeFails).recorder.IsRecording = true ∧
    ((((NewMJPEGRecorder 5 30 "out.avi" 85).Start 640 480 none).recorder.CaptureFrame
        screen2x1 ioEncodeFails).recorder.CaptureFrame screen2x1 ioOk).recorder.FrameCount
      = 1 := by
  obtain ⟨h1, -, -, -, -, h6, h7⟩ := C9_encode_failure_skips_frame
    ((NewMJPEGRecorder 5 30 "out.avi" 85).Start 640 480 none).recorder screen2x1 ioEncodeFails
    "encode failed" (by decide) (by decide) rfl
  refine ⟨h1, h6, ?_⟩
  rw [(h7 screen2x1 ioOk (MJPEGRecorder.Reachable.start 640 480 none
    (MJPEGRecorder.Reachable.new 5 30 "out.avi" 85 (by decide))) rfl).2]
  decide

/-- C10, counterexample: a started recorder whose `writer.AddFrame` fails
returns the error and is still recording afterwards. -/
theorem C10_add_frame_failure_keeps_recording_example :
    ((NewMJPEGRecorder 5 30 "out.avi" 85).Start 640 480 none).recorder.IsRecording = true ∧
    (((NewMJPEGRecorder 5 30 "out.avi" 85).Start 640 480 none).recorder.CaptureFrame
        screen2x1 ioAddFrameFails).out = .returned (some "disk full") ∧
    (((NewMJPEGRecorder 5 30 "out.avi" 85).Start 640 480 none).recorder.CaptureFrame
        screen2x1 ioAddFrameFails).recorder.IsRecording = true := by
  decide

/-- C10 as amended: on every recording `MJPEGRecorder` below its frame limit
that holds a writer, a failing `writer.AddFrame` makes `CaptureFrame` return
that error after the pixel read, the encode and the one `AddFrame` call; every
field keeps its value, so `frameCount` is unchanged and the recorder is still
recording (`IsRecording()` is true afterwards). -/
theorem C10_add_frame_failure_keeps_recording (r : MJPEGRecorder) (screen : Image)
    (io : CaptureIO) (wr : AviWriter) (buf : Bytes) (err : Error)
    (hrec : r.recording = true)
    (hbelow : ¬ (r.maxFrames > 0 ∧ r.frameCount ≥ r.maxFrames))
    (hw : r.writer = some wr) (henc : io.jpeg = .ok buf) (hfail : io.addFrame = some err) :
    (r.CaptureFrame screen io).out = .returned (some err) ∧
      (r.CaptureFrame screen io).recorder = r ∧
      (r.CaptureFrame screen io).calls =
        [Call.readPixels (4 * screen.Bounds.Dx * screen.Bounds.Dy),
         Call.jpegEncode
           { Pix := screen.content, Stride := 4 * screen.Bounds.Dx, Rect := screen.Bounds }
           r.jpegQuality,
         Call.writerAddFrame wr buf] ∧
      (r.CaptureFrame screen io).recorder.FrameCount = r.FrameCount ∧
      (r.CaptureFrame screen io).recorder.IsRecording = true := by
  have heq : r.CaptureFrame screen io =
      { recorder := r, out := .returned (some err),
        calls :=
          [Call.readPixels (4 * screen.Bounds.Dx * screen.Bounds.Dy),
           Call.jpegEncode
             { Pix := screen.content, Stride := 4 * screen.Bounds.Dx, Rect := screen.Bounds }
             r.jpegQuality,
           Call.writerAddFrame wr buf] } := by
    unfold MJPEGRecorder.CaptureFrame
    simp [hrec, hbelow, henc, hw, hfail]
  rw [heq]
  exact ⟨rfl, rfl, rfl, rfl, hrec⟩

/-- Witness of C10 as amended: the started recorder whose `AddFrame` answers
"disk full" returns that error with no frame counted and stays recording. -/
theorem C10_add_frame_failure_keeps_recording_witness :
    (((NewMJPEGRecorder 5 30 "out.avi" 85).Start 640 480 none).recorder.CaptureFrame
        screen2x1 ioAddFrameFails).out = .returned (some "disk full") ∧
    (((NewMJPEGRecorder 5 30 "out.avi" 85).Start 640 480 none).recorder.CaptureFrame
        screen2x1 ioAddFrameFails).recorder.FrameCount = 0 ∧
    (((NewMJPEGRecorder 5 30 "out.avi" 85).Start 640 480 none).recorder.CaptureFrame
        screen2x1 ioAddFrameFails).recorder.IsRecording = true := by
  obtain ⟨h1, -, -, h4, h5⟩ := C10_add_frame_failure_keeps_recording
    ((NewMJPEGRecorder 5 30 "out.avi" 85).Start 640 480 none).recorder screen2x1
    ioAddFrameFails
    { path := "out.avi", width := 640, height := 480, fps := 30 }
    [255, 216, 255, 217] "disk full" (by decide) (by decide) (by decide) rfl rfl
  exact ⟨h1, by rw [h4]; decide, h5⟩

theorem int32_of_isInt32 {x : Int} (h : IsInt32 x) : int32 x = x := by
  unfold IsInt32 at h
  unfold int32
  norm_num at h ⊢
  omega

/-- C11, counterexample: on a fresh recorder `Start(2147483648, 480)` whose
writer opens stores the width -2147483648, not the argument. -/
theorem C11_start_width_wraps :
    (NewMJPEGRecorder 600 30 "out.avi" 85).recording = false ∧
    ((NewMJPEGRecorder 600 30 "out.avi" 85).Start 2147483648 480 none).out = .returned none ∧
    ((NewMJPEGRecorder 600 30 "out.avi" 85).Start 2147483648 480 none).recorder.width =
      -2147483648 ∧
    ((NewMJPEGRecorder 600 30 "out.avi" 85).Start 2147483648 480 none).recorder.width ≠
      2147483648 := by
  decide

/-- C11 as amended: on every idle `MJPEGRecorder`, for every width and height,
`Start` makes the one call `mjpeg.New(outputPath, int32(width), int32(height),
fps)`. If it opens a writer, `Start` returns nil and afterwards `recording` is
true, `frameCount` is 0, the new writer is stored, `width` and `height` hold
`int32(width)` and `int32(height)` (the arguments themselves when they fit in 32
bits) and the other fields keep their values. If it fails, `Start` returns that
error and every field is unchanged. -/
theorem C11_mjpeg_start_from_idle (r : MJPEGRecorder) (width height : Int)
    (hidle : r.recording = false) :
    (r.Start width height none).out = .returned none ∧
      (r.Start width height none).calls =
        [Call.mjpegNew r.outputPath (int32 width) (int32 height) r.fps] ∧
      (r.Start width height none).recorder.recording = true ∧
      (r.Start width height none).recorder.frameCount = 0 ∧
      (r.Start width height none).recorder.writer =
        some { path := r.outputPath, width := int32 width, height := int32 height,
               fps := r.fps } ∧
      (r.Start width height none).recorder.width = int32 width ∧
      (r.Start width height none).recorder.height = int32 height ∧
      (IsInt32 width → (r.Start width height none).recorder.width = width) ∧
      (IsInt32 height → (r.Start width height none).recorder.height = height) ∧
      (r.Start width height none).recorder.maxFrames = r.maxFrames ∧
      (r.Start width height none).recorder.fps = r.fps ∧
      (r.Start width height none).recorder.outputPath = r.outputPath ∧
      (r.Start width height none).recorder.jpegQuality = r.jpegQuality ∧
      (∀ err : Error,
        r.Start width height (some err) =
          { recorder := r, out := .returned (some err),
            calls := [Call.mjpegNew r.outputPath (int32 width) (int32 height) r.fps] }) := by
  have hrec := MJPEGRecorder.mjpeg_start_ok r width height hidle
  have hok : r.Start width height none =
      { recorder := (r.Start width height none).recorder, out := .returned none,
        calls := [Call.mjpegNew r.outputPath (int32 width) (int32 height) r.fps] } := by
    simp [MJPEGRecorder.Start, hidle]
  refine ⟨by rw [hok], by rw [hok], ?_, ?_, ?_, ?_, ?_, ?_, ?_, ?_, ?_, ?_, ?_, ?_⟩
  · rw [hrec]
  · rw [hrec]
  · rw [hrec]
  · rw [hrec]
  · rw [hrec]
  · intro hw
    rw [hrec]
    exact int32_of_isInt32 hw
  · intro hh
    rw [hrec]
    exact int32_of_isInt32 hh
  · rw [hrec]
  · rw [hrec]
  · rw [hrec]
  · rw [hrec]
  · intro err
    simp [MJPEGRecorder.Start, hidle]

/-- Witness of C11 as amended: `Start(640, 480)` on a fresh recorder whose
writer opens stores the arguments, records and counts no frame; when the
writer does not open the recorder is as it was. -/
theorem C11_mjpeg_start_from_idle_witness :
    ((NewMJPEGRecorder 600 30 "out.avi" 85).Start 640 480 none).recorder.recording = true ∧
    ((NewMJPEGRecorder 600 30 "out.avi" 85).Start 640 480 none).recorder.width = 640 ∧
    ((NewMJPEGRecorder 600 30 "out.avi" 85).Start 640 480 none).recorder.height = 480 ∧
    ((NewMJPEGRecorder 600 30 "out.avi" 85).Start 640 480 (some "no such directory")).recorder =
      NewMJPEGRecorder 600 30 "out.avi" 85 := by
  obtain ⟨-, -, h3, -, -, -, -, h8, h9, -, -, -, -, h14⟩ :=
    C11_mjpeg_start_from_idle (NewMJPEGRecorder 600 30 "out.avi" 85) 640 480 rfl
  exact ⟨h3, h8 (by decide), h9 (by decide), by rw [h14 "no such directory"]⟩

/-- C12: in every state a `GIFRecorder` can reach from `NewGIFRecorder` by
`Start`, `Stop`, `CaptureFrame` and `SaveGIF`, `len(frames) = len(delays) =
frameCount` and `frameCount <= maxFrames`, so every `gif.EncodeAll` call of
`SaveGIF` receives equally long image and delay lists; in every state a
`WebPRecorder` can reach, `len(frames) = frameCount <= maxFrames`. -/
theorem C12_buffer_lengths_invariant :
    (∀ r : GIFRecorder, r.Reachable →
      r.frames.length = r.delays.length ∧
      (r.frames.length : Int) = r.frameCount ∧
      (r.delays.length : Int) = r.frameCount ∧
      r.frameCount ≤ r.maxFrames ∧
      (∀ (createErr encodeErr : Option Error) (images : List Paletted) (delays : List Int),
        Call.gifEncodeAll images delays ∈ (r.SaveGIF createErr encodeErr).calls →
        images.length = delays.length)) ∧
    (∀ r : WebPRecorder, r.Reachable →
      (r.frames.length : Int) = r.frameCount ∧ r.frameCount ≤ r.maxFrames) := by
  constructor
  · intro r hreach
    obtain ⟨-, -, h3, h4, h5, -⟩ := GIFRecorder.gif_inv_of_reachable hreach
    refine ⟨h5.symm, h4, by rw [h5]; exact h4, h3, ?_⟩
    intro createErr encodeErr images delays hmem
    obtain ⟨hi, hd⟩ := GIFRecorder.gif_save_calls r createErr encodeErr images delays hmem
    rw [hi, hd]
    exact h5.symm
  · intro r hreach
    obtain ⟨-, -, h3, h4, -⟩ := WebPRecorder.webp_inv_of_reachable hreach
    exact ⟨h4, h3⟩

/-- Witness of C12: a GIF recorder limited to two frames, after `Start`, three
captures, a save, a `Stop` and one more capture, holds two frames, two delays
and the count 2; a WebP recorder on the same path holds two frames. -/
theorem C12_buffer_lengths_invariant_witness :
    ((((NewGIFRecorder 2 30 "out.gif").Start.captureAll
        [screen2x1, screen2x1, screen2x1]).SaveGIF none none).recorder.Stop.CaptureFrame
        screen2x1).recorder.frames.length = 2 ∧
    ((((NewGIFRecorder 2 30 "out.gif").Start.captureAll
        [screen2x1, screen2x1, screen2x1]).SaveGIF none none).recorder.Stop.CaptureFrame
        screen2x1).recorder.delays.length = 2 ∧
    ((((NewGIFRecorder 2 30 "out.gif").Start.captureAll
        [screen2x1, screen2x1, screen2x1]).SaveGIF none none).recorder.Stop.CaptureFrame
        screen2x1).recorder.frameCount = 2 ∧
    ((((NewWebPRecorder 2 30 "out.webp").Start.captureAll
        [screen2x1, screen2x1, screen2x1]).SaveWebP none none).recorder.Stop.CaptureFrame
        screen2x1).recorder.frames.length = 2 := by
  have hg := C12_buffer_lengths_invariant.1
    ((((NewGIFRecorder 2 30 "out.gif").Start.captureAll
      [screen2x1, screen2x1, screen2x1]).SaveGIF none none).recorder.Stop.CaptureFrame
      screen2x1).recorder
    (GIFRecorder.Reachable.capture screen2x1 (GIFRecorder.Reachable.stop
      (GIFRecorder.Reachable.save none none (GIFRecorder.gif_reachable_captureAll _ _
        (GIFRecorder.Reachable.start (GIFRecorder.Reachable.new 2 30 "out.gif" (by decide)))))))
  have hw := C12_buffer_lengths_invariant.2
    ((((NewWebPRecorder 2 30 "out.webp").Start.captureAll
      [screen2x1, screen2x1, screen2x1]).SaveWebP none none).recorder.Stop.CaptureFrame
      screen2x1).recorder
    (WebPRecorder.Reachable.capture screen2x1 (WebPRecorder.Reachable.stop
      (WebPRecorder.Reachable.save none none (WebPRecorder.webp_reachable_captureAll _ _
        (WebPRecorder.Reachable.start (WebPRecorder.Reachable.new 2 30 "out.webp" (by decide)))))))
  have hgc : ((((NewGIFRecorder 2 30 "out.gif").Start.captureAll
      [screen2x1, screen2x1, screen2x1]).SaveGIF none none).recorder.Stop.CaptureFrame
      screen2x1).recorder.frameCount = 2 := by decide
  have hwc : ((((NewWebPRecorder 2 30 "out.webp").Start.captureAll
      [screen2x1, screen2x1, screen2x1]).SaveWebP none none).recorder.Stop.CaptureFrame
      screen2x1).recorder.frameCount = 2 := by decide
  obtain ⟨-, g2, g3, -, -⟩ := hg
  obtain ⟨w1, -⟩ := hw
  rw [hgc] at g2 g3
  rw [hwc] at w1
  exact ⟨by exact_mod_cast g2, by exact_mod_cast g3, hgc, by exact_mod_cast w1⟩

/-- C13: for every integer fps passed to `NewGIFRecorder` or
`NewWebPRecorder` the stored fps is at least 1, and it stays so in every
reachable state; so the quotient `1000 / fps` of `NewWebPRecorder` never has a
zero divisor (the constructor returns, it does not panic) and no
`GIFRecorder.CaptureFrame` call on a reachable recorder panics on
`100 / r.fps`. -/
theorem C13_fps_positive_no_division_by_zero :
    (∀ (maxFrames fps : Int) (outputPath : String),
      1 ≤ (NewGIFRecorder maxFrames fps outputPath).fps ∧
      1 ≤ (NewWebPRecorder maxFrames fps outputPath).fps ∧
      NewWebPRecorder.checked maxFrames fps outputPath =
        .returned (NewWebPRecorder maxFrames fps outputPath)) ∧
    (∀ r : GIFRecorder, r.Reachable →
      1 ≤ r.fps ∧ r.fps ≠ 0 ∧ ∀ screen : Image, (r.CaptureFrame screen).out = .returned ()) ∧
    (∀ r : WebPRecorder, r.Reachable → 1 ≤ r.fps ∧ r.fps ≠ 0) := by
  refine ⟨?_, ?_, ?_⟩
  · intro maxFrames fps outputPath
    have hpos : (1 : Int) ≤ (if fps ≤ 0 then 30 else fps) := by
      split_ifs <;> omega
    have hne : ¬ ((if fps ≤ 0 then (30 : Int) else fps) = 0) := by omega
    refine ⟨hpos, hpos, ?_⟩
    simp only [NewWebPRecorder.checked, NewWebPRecorder, hne, if_false]
  · intro r hreach
    have hf : 1 ≤ r.fps := (GIFRecorder.gif_inv_of_reachable hreach).2.2.2.2.2
    have hne : r.fps ≠ 0 := by omega
    refine ⟨hf, hne, ?_⟩
    intro screen
    unfold GIFRecorder.CaptureFrame
    dsimp only
    split_ifs <;> rfl
  · intro r hreach
    have hf : 1 ≤ r.fps := (WebPRecorder.webp_inv_of_reachable hreach).2.2.2.2.1
    exact ⟨hf, by omega⟩

/-- Witness of C13: recorders built with fps 0 store fps 30, and a capture on
the started GIF recorder returns. -/
theorem C13_fps_positive_no_division_by_zero_witness :
    (NewGIFRecorder 10 0 "out.gif").fps = 30 ∧
    (NewWebPRecorder 10 0 "out.webp").fps = 30 ∧
    1 ≤ (NewGIFRecorder 10 0 "out.gif").Start.fps ∧
    ((NewGIFRecorder 10 0 "out.gif").Start.CaptureFrame screen2x1).out = .returned () ∧
    1 ≤ (NewWebPRecorder 10 (-7) "out.webp").Start.fps := by
  obtain ⟨h1, -, h3⟩ := C13_fps_positive_no_division_by_zero.2.1
    (NewGIFRecorder 10 0 "out.gif").Start
    (GIFRecorder.Reachable.start (GIFRecorder.Reachable.new 10 0 "out.gif" (by decide)))
  obtain ⟨h4, -⟩ := C13_fps_positive_no_division_by_zero.2.2
    (NewWebPRecorder 10 (-7) "out.webp").Start
    (WebPRecorder.Reachable.start (WebPRecorder.Reachable.new 10 (-7) "out.webp" (by decide)))
  exact ⟨by decide, by decide, h1, h3 screen2x1, h4⟩

end Recorder
